import Mathlib

/-!
Shallow embedding of the geofenced attendance and anomaly-detection core of
`src/backend/kwv_api.py` (FastAPI + MySQL).  Database tables become Lean
lists, `NOW()` becomes an integer epoch-second parameter, `DATE(x)` becomes
flooring division by 86400, and each endpoint becomes a pure function from
the database state (plus request data) to a response together with the new
state.  Fallible endpoints return `Except HttpError`.

Python truthiness is modelled explicitly: `if data.latitude and ...` is
false both for `None` and for `0`, `s or d` yields `d` when `s` is `None`
or `0`, and an empty string is falsy.

The `haversine` helper of the source uses floating-point trigonometry; the
endpoints only ever consume `int(haversine(...))`, so the embedding is
parameterised by an arbitrary function `hav` giving that truncated integer
distance in meters.  No claim here depends on properties of the actual
trigonometric formula.
-/

namespace KWV

/-- HTTP error as raised by `HTTPException(status_code, detail)`. -/
structure HttpError where
  status : Nat
  detail : String
deriving DecidableEq, Repr

/-- `check_type` column: `check_in` / `check_out`. -/
inductive CheckType
  | check_in
  | check_out
deriving DecidableEq, Repr

/-- Row of `kwv_workplaces` (the columns the attendance core reads). -/
structure Workplace where
  id : Nat
  name : String
  latitude : Option Rat
  longitude : Option Rat
  geofence_radius : Option Int
  qr_code : String
  is_active : Bool
deriving DecidableEq, Repr

/-- Row of `kwv_attendance` (append-only ledger). -/
structure AttendanceRecord where
  id : Nat
  user_id : Nat
  workplace_id : Nat
  check_type : CheckType
  check_method : String
  latitude : Option Rat
  longitude : Option Rat
  distance_from_workplace : Option Int
  is_valid : Bool
  invalid_reason : Option String
  photo_url : Option String
  ip_address : Option String
  note : Option String
  check_time : Int
deriving DecidableEq, Repr

/-- Row of `kwv_users` (the columns the anomaly scan reads). -/
structure User where
  id : Nat
  name : String
  email : String
  user_type : String
  is_active : Bool
  is_approved : Bool
  admin_level : Int
deriving DecidableEq, Repr

/-- Row of `kwv_anomaly_rules`. -/
structure AnomalyRule where
  rule_key : String
  is_active : Bool
  threshold : Option Int
  score : Int
deriving DecidableEq, Repr

/-- Structured form of the `details` JSON column of `kwv_anomalies`. -/
inductive CaseDetails
  | absentStreak (days_absent : Int) (last_checkin : Int)
  | gpsViolation (violation_count : Nat)
  | noCheckout (no_checkout_count : Nat)
deriving DecidableEq, Repr

/-- Row of `kwv_anomalies`. -/
structure AnomalyCase where
  id : Nat
  user_id : Nat
  anomaly_type : String
  score : Int
  description : String
  details : Option CaseDetails
  status : String
  resolved_by : Option Nat
  resolve_note : Option String
  created_at : Int
  resolved_at : Option Int
deriving DecidableEq, Repr

/-- Row of `kwv_notifications` (the columns the scan writes). -/
structure Notification where
  user_id : Nat
  title : String
  message : String
  notification_type : String
  reference_type : String
deriving DecidableEq, Repr

/-- The database state the attendance / anomaly core touches. -/
structure DB where
  workplaces : List Workplace
  attendance : List AttendanceRecord
  users : List User
  rules : List AnomalyRule
  anomalies : List AnomalyCase
  notifications : List Notification
  next_attendance_id : Nat
  next_anomaly_id : Nat
deriving DecidableEq, Repr

/-- MySQL `DATE(t)` on epoch seconds: the calendar-day index (floor). -/
def dateOf (t : Int) : Int := t / 86400

/-- Python truthiness of an optional float (falsy iff `None` or `0`). -/
def ratTruthy : Option Rat → Bool
  | none => false
  | some x => x != 0

/-- Python truthiness of an optional int id (falsy iff `None` or `0`). -/
def natTruthy : Option Nat → Bool
  | none => false
  | some n => n != 0

/-- Python truthiness of an optional string (falsy iff `None` or `""`). -/
def strTruthy : Option String → Bool
  | none => false
  | some s => s != ""

/-- Python `x or d` for an optional int (`None` and `0` both give `d`). -/
def intOr (x : Option Int) (d : Int) : Int :=
  match x with
  | none => d
  | some v => if v = 0 then d else v

/-- Request body of `POST /attendance/check` (`AttendanceCheck` model). -/
structure AttendanceCheckReq where
  workplace_id : Option Nat
  qr_code : Option String
  check_type : CheckType
  latitude : Option Rat
  longitude : Option Rat
  photo_url : Option String
  note : Option String
deriving DecidableEq, Repr

/-- Success payload of `POST /attendance/check`. -/
structure AttendanceResponse where
  id : Nat
  message : String
  is_valid : Bool
  distance : Option Int
  invalid_reason : Option String
deriving DecidableEq, Repr

/-- The `invalid_reason` message built at kwv_api.py:2103, embedding the
computed distance and the allowed radius. -/
def invalidReasonMsg (d radius : Int) : String :=
  "사업장에서 " ++ toString d ++ "m 떨어져 있습니다 (허용: " ++ toString radius ++ "m)"

/-- The duplicate-suppression query at kwv_api.py:2107: a record for the
same (user, workplace, check_type) with `check_time > NOW() - 5 MINUTE`. -/
def hasRecentDup (att : List AttendanceRecord) (uid wid : Nat)
    (ct : CheckType) (now : Int) : Bool :=
  att.any fun r =>
    r.user_id == uid && r.workplace_id == wid && r.check_type == ct &&
      decide (r.check_time > now - 300)

/-- QR resolution at kwv_api.py:2075: first active workplace whose current
token equals the submitted one. -/
def findByQr (wps : List Workplace) (qr : String) : Option Workplace :=
  wps.find? fun w => w.qr_code == qr && w.is_active

/-- Workplace lookup by id at kwv_api.py:2086. -/
def findWorkplace (wps : List Workplace) (wid : Nat) : Option Workplace :=
  wps.find? fun w => w.id == wid

/-- `POST /attendance/check` (kwv_api.py:2065, `attendance_check`).
`hav` stands for `int(haversine(lat, lon, wp_lat, wp_lon))`; `now` is
`NOW()` in epoch seconds; `uid` is the authenticated worker.  Raising an
`HTTPException` before the `INSERT` leaves the database unchanged, which
the `Except.error` result models. -/
def attendance_check (hav : Rat → Rat → Rat → Rat → Int) (db : DB)
    (now : Int) (uid : Nat) (ip : Option String) (data : AttendanceCheckReq) :
    Except HttpError (AttendanceResponse × DB) := do
  -- QR 코드로 사업장 찾기
  let wid0 ←
    if strTruthy data.qr_code && !natTruthy data.workplace_id then
      match findByQr db.workplaces ((data.qr_code).getD "") with
      | none => Except.error ⟨404, "유효하지 않은 QR 코드입니다"⟩
      | some wp => Except.ok (some wp.id)
    else
      Except.ok data.workplace_id
  if !natTruthy wid0 then
    Except.error ⟨400, "사업장 ID 또는 QR 코드가 필요합니다"⟩
  else
    let wid := wid0.getD 0
    match findWorkplace db.workplaces wid with
    | none => Except.error ⟨404, "사업장을 찾을 수 없습니다"⟩
    | some wp =>
      let radius := intOr wp.geofence_radius 200
      let check_method := if strTruthy data.qr_code then "qr" else "gps"
      let distInfo : Option Int × Bool × Option String :=
        if ratTruthy data.latitude && ratTruthy data.longitude &&
            ratTruthy wp.latitude && ratTruthy wp.longitude then
          let d := hav ((data.latitude).getD 0) ((data.longitude).getD 0)
            ((wp.latitude).getD 0) ((wp.longitude).getD 0)
          if d > radius then
            (some d, false, some (invalidReasonMsg d radius))
          else
            (some d, true, none)
        else
          (none, true, none)
      let distance := distInfo.1
      let is_valid := distInfo.2.1
      let invalid_reason := distInfo.2.2
      if hasRecentDup db.attendance uid wid data.check_type now then
        Except.error ⟨429, "5분 이내 중복 체크입니다"⟩
      else
        let rec_ : AttendanceRecord :=
          { id := db.next_attendance_id, user_id := uid, workplace_id := wid,
            check_type := data.check_type, check_method := check_method,
            latitude := data.latitude, longitude := data.longitude,
            distance_from_workplace := distance, is_valid := is_valid,
            invalid_reason := invalid_reason, photo_url := data.photo_url,
            ip_address := ip, note := data.note, check_time := now }
        let status_text :=
          if data.check_type = CheckType.check_in then "출근" else "퇴근"
        Except.ok
          ({ id := db.next_attendance_id,
             message := wp.name ++ " " ++ status_text ++ " 완료",
             is_valid := is_valid, distance := distance,
             invalid_reason := invalid_reason },
           { db with attendance := db.attendance ++ [rec_],
                     next_attendance_id := db.next_attendance_id + 1 })

/-- `POST /workplaces/{wp_id}/regenerate-qr` (kwv_api.py:1967).  The fresh
random token is a parameter (`uuid` randomness is outside the model). -/
def regenerate_qr (db : DB) (wp_id : Nat) (new_qr : String) :
    Except HttpError (String × DB) :=
  if db.workplaces.any (fun w => w.id == wp_id) then
    Except.ok (new_qr,
      { db with workplaces := db.workplaces.map fun w =>
          if w.id = wp_id then { w with qr_code := new_qr } else w })
  else
    Except.error ⟨404, "사업장을 찾을 수 없습니다"⟩

/-- The rule dictionary built at kwv_api.py:3297
(`{r['rule_key']: r for r in active rules}` — on a duplicate key the last
row wins, as in a Python dict comprehension). -/
def rulesDict (rules : List AnomalyRule) (k : String) : Option AnomalyRule :=
  rules.foldl
    (fun acc r => if r.is_active && r.rule_key == k then some r else acc) none

/-- A case counts as still open for dedup when its status is `detected` or
`reviewing` (kwv_api.py:3320, 3345, 3374). -/
def openStatus (s : String) : Bool := s == "detected" || s == "reviewing"

/-- Same-day dedup window of the absent-streak rule
(`DATE(created_at)=CURDATE()`, kwv_api.py:3320). -/
def sameDayWindow (today : Int) : Int → Bool := fun ca => dateOf ca == today

/-- 7-day dedup window of the GPS rule
(`created_at >= DATE_SUB(NOW(), INTERVAL 7 DAY)`, kwv_api.py:3345). -/
def gpsWindow (now : Int) : Int → Bool := fun ca => decide (ca ≥ now - 7 * 86400)

/-- 14-day dedup window of the no-checkout rule
(`created_at >= DATE_SUB(NOW(), INTERVAL 14 DAY)`, kwv_api.py:3374). -/
def ncWindow (now : Int) : Int → Bool := fun ca => decide (ca ≥ now - 14 * 86400)

/-- Dedup lookup shared by the three rules: an open case of the given type
for the given worker whose `created_at` satisfies the rule's window. -/
def hasOpenCase (anoms : List AnomalyCase) (uid : Nat) (ty : String)
    (window : Int → Bool) : Bool :=
  anoms.any fun c =>
    c.user_id == uid && c.anomaly_type == ty && openStatus c.status &&
      window c.created_at

/-- `MAX(DATE(check_time))` over a worker's `check_in` rows
(kwv_api.py:3308); `none` when the worker never checked in. -/
def lastCheckinDate (att : List AttendanceRecord) (uid : Nat) : Option Int :=
  (att.filterMap fun r =>
      if r.user_id == uid && r.check_type == CheckType.check_in then
        some (dateOf r.check_time)
      else none).foldl (fun acc x => some (max (acc.getD x) x)) none

/-- Per-worker count of invalid records in the last 7 days
(kwv_api.py:3334). -/
def invalidCount7d (att : List AttendanceRecord) (uid : Nat) (now : Int) : Nat :=
  att.countP fun r =>
    r.user_id == uid && !r.is_valid && decide (r.check_time ≥ now - 7 * 86400)

/-- Per-worker count of `check_in` rows in the last 14 days that have no
`check_out` on the same calendar date (kwv_api.py:3360, the
`LEFT JOIN ... WHERE co.id IS NULL` anti-join). -/
def noCheckoutCount (att : List AttendanceRecord) (uid : Nat) (now : Int) : Nat :=
  att.countP fun ci =>
    ci.user_id == uid && ci.check_type == CheckType.check_in &&
      decide (ci.check_time ≥ now - 14 * 86400) &&
      !(att.any fun co =>
        co.user_id == uid && co.check_type == CheckType.check_out &&
          dateOf co.check_time == dateOf ci.check_time)

/-- One entry of the scan's `details` list. -/
structure Detected where
  user : String
  type : String
  metric : Int
deriving DecidableEq, Repr

/-- Modelled from the spec: the `CREATE TABLE` for `kwv_anomalies` is not in
`src/`, so the column defaults the `INSERT` at kwv_api.py:3323 relies on —
initial status `detected`, `created_at = NOW()`, null resolver fields — are
taken from the spec's data model ("status ∈ {detected, reviewing, resolved,
closed}", "detected (initial)", "created timestamp"). -/
def mkCase (cid uid : Nat) (ty : String) (score : Int) (descr : String)
    (details : CaseDetails) (now : Int) : AnomalyCase :=
  { id := cid, user_id := uid, anomaly_type := ty, score := score,
    description := descr, details := some details, status := "detected",
    resolved_by := none, resolve_note := none, created_at := now,
    resolved_at := none }

/-- The approved active applicant roster the absent-streak rule scans
(kwv_api.py:3310). -/
def applicants (users : List User) : List User :=
  users.filter fun u =>
    u.user_type == "applicant" && u.is_active && u.is_approved

/-- The absent-streak loop (kwv_api.py:3313): for each roster worker, if a
last check-in date exists and lies `threshold` or more days back, insert a
case unless an open one was already created today. -/
def absentLoop (score threshold : Int) (att : List AttendanceRecord)
    (today now : Int) :
    List User → List AnomalyCase → Nat →
      List AnomalyCase × Nat × List Detected
  | [], anoms, nid => (anoms, nid, [])
  | w :: ws, anoms, nid =>
    match lastCheckinDate att w.id with
    | none => absentLoop score threshold att today now ws anoms nid
    | some last =>
      if today - last ≥ threshold then
        if hasOpenCase anoms w.id "absent_streak" (sameDayWindow today) then
          absentLoop score threshold att today now ws anoms nid
        else
          let days := today - last
          let c := mkCase nid w.id "absent_streak" score
            (w.name ++ " - " ++ toString days ++ "일 연속 결근")
            (CaseDetails.absentStreak days last) now
          let r := absentLoop score threshold att today now ws
            (anoms ++ [c]) (nid + 1)
          (r.1, r.2.1, ⟨w.name, "absent_streak", days⟩ :: r.2.2)
      else
        absentLoop score threshold att today now ws anoms nid

/-- The GPS-violation loop (kwv_api.py:3342): workers with at least 2
invalid records in the last 7 days; the stored rule threshold is not
consulted (the cutoff 2 is written into the SQL `HAVING`).  The SQL groups
attendance rows joined to `kwv_users`; the embedding iterates the user
table, which selects the same workers. -/
def gpsLoop (score : Int) (att : List AttendanceRecord) (now : Int) :
    List User → List AnomalyCase → Nat →
      List AnomalyCase × Nat × List Detected
  | [], anoms, nid => (anoms, nid, [])
  | u :: us, anoms, nid =>
    let cnt := invalidCount7d att u.id now
    if cnt ≥ 2 then
      if hasOpenCase anoms u.id "gps_violation" (gpsWindow now) then
        gpsLoop score att now us anoms nid
      else
        let c := mkCase nid u.id "gps_violation" score
          (u.name ++ " - 최근 7일 GPS 이탈 " ++ toString cnt ++ "회")
          (CaseDetails.gpsViolation cnt) now
        let r := gpsLoop score att now us (anoms ++ [c]) (nid + 1)
        (r.1, r.2.1, ⟨u.name, "gps_violation", (cnt : Int)⟩ :: r.2.2)
    else
      gpsLoop score att now us anoms nid

/-- The no-checkout loop (kwv_api.py:3371): workers with at least
`threshold` check-ins lacking a same-date check-out in the last 14 days. -/
def noCheckoutLoop (score threshold : Int) (att : List AttendanceRecord)
    (now : Int) :
    List User → List AnomalyCase → Nat →
      List AnomalyCase × Nat × List Detected
  | [], anoms, nid => (anoms, nid, [])
  | u :: us, anoms, nid =>
    let cnt := noCheckoutCount att u.id now
    if (cnt : Int) ≥ threshold then
      if hasOpenCase anoms u.id "no_checkout" (ncWindow now) then
        noCheckoutLoop score threshold att now us anoms nid
      else
        let c := mkCase nid u.id "no_checkout" score
          (u.name ++ " - 최근 14일 미퇴근 " ++ toString cnt ++ "회")
          (CaseDetails.noCheckout cnt) now
        let r := noCheckoutLoop score threshold att now us (anoms ++ [c]) (nid + 1)
        (r.1, r.2.1, ⟨u.name, "no_checkout", (cnt : Int)⟩ :: r.2.2)
    else
      noCheckoutLoop score threshold att now us anoms nid

/-- Result of `POST /admin/anomalies/scan`. -/
structure ScanResult where
  scanned : Bool
  detected_count : Nat
  details : List Detected
deriving DecidableEq, Repr

/-- Summary notification fan-out after the scan (kwv_api.py:3388): one
warning per administrator of `admin_level ≥ 5`, only when something was
detected. -/
def scanNotifications (users : List User) (n : Nat) : List Notification :=
  (users.filter fun u => decide (u.admin_level ≥ 5)).map fun a =>
    { user_id := a.id,
      title := "이상감지 스캔: " ++ toString n ++ "건 발견",
      message := "스캔 결과 " ++ toString n ++ "건의 이상 행동이 감지되었습니다.",
      notification_type := "warning", reference_type := "anomaly" }

/-- Rule 1 of the scan (kwv_api.py:3302): skipped entirely when the
`absent_3days` rule is absent or inactive. -/
def absentStage (rules : List AnomalyRule) (att : List AttendanceRecord)
    (today now : Int) (users : List User) (anoms : List AnomalyCase)
    (nid : Nat) : List AnomalyCase × Nat × List Detected :=
  match rulesDict rules "absent_3days" with
  | some rule =>
    absentLoop rule.score (intOr rule.threshold 3) att today now
      (applicants users) anoms nid
  | none => (anoms, nid, [])

/-- Rule 2 of the scan (kwv_api.py:3331): skipped when the `gps_violation`
rule is absent or inactive.  Only the rule's score is consumed. -/
def gpsStage (rules : List AnomalyRule) (att : List AttendanceRecord)
    (now : Int) (users : List User) (anoms : List AnomalyCase)
    (nid : Nat) : List AnomalyCase × Nat × List Detected :=
  match rulesDict rules "gps_violation" with
  | some rule => gpsLoop rule.score att now users anoms nid
  | none => (anoms, nid, [])

/-- Rule 3 of the scan (kwv_api.py:3356): skipped when the `no_checkout_3`
rule is absent or inactive. -/
def ncStage (rules : List AnomalyRule) (att : List AttendanceRecord)
    (now : Int) (users : List User) (anoms : List AnomalyCase)
    (nid : Nat) : List AnomalyCase × Nat × List Detected :=
  match rulesDict rules "no_checkout_3" with
  | some rule =>
    noCheckoutLoop rule.score (intOr rule.threshold 3) att now users anoms nid
  | none => (anoms, nid, [])

/-- `POST /admin/anomalies/scan` (kwv_api.py:3286, `scan_anomalies`).
Loads the active rules, runs the three rule stages in order over the
shared anomaly table, then fans out the summary notification. -/
def scan_anomalies (db : DB) (now : Int) : ScanResult × DB :=
  let today := dateOf now
  let s1 := absentStage db.rules db.attendance today now db.users
    db.anomalies db.next_anomaly_id
  let s2 := gpsStage db.rules db.attendance now db.users s1.1 s1.2.1
  let s3 := ncStage db.rules db.attendance now db.users s2.1 s2.2.1
  let detected := s1.2.2 ++ s2.2.2 ++ s3.2.2
  let notifs :=
    if detected.isEmpty then db.notifications
    else db.notifications ++ scanNotifications db.users detected.length
  (⟨true, detected.length, detected⟩,
   { db with anomalies := s3.1, next_anomaly_id := s3.2.1,
             notifications := notifs })

/-- `PUT /admin/anomalies/{id}/resolve` (kwv_api.py:3455,
`resolve_anomaly`).  The new status is whatever the body supplies (default
`resolved`); the `UPDATE` row count is never inspected, so the endpoint
answers `success = true` unconditionally. -/
def resolve_anomaly (db : DB) (now : Int) (admin_id : Nat) (anomaly_id : Nat)
    (body_status : Option String) (body_note : Option String) : Bool × DB :=
  let new_status := body_status.getD "resolved"
  let note := body_note.getD ""
  (true,
   { db with anomalies := db.anomalies.map fun c =>
      if c.id = anomaly_id then
        { c with status := new_status, resolved_by := some admin_id,
                 resolved_at := some now, resolve_note := some note }
      else c })

/-- An approved, active applicant used by scan-related instances. -/
def usr1 : User :=
  { id := 1, name := "홍길동", email := "hong@example.com",
    user_type := "applicant", is_active := true, is_approved := true,
    admin_level := 0 }

/-- An already-resolved anomaly case. -/
def caseResolved : AnomalyCase :=
  { id := 3, user_id := 1, anomaly_type := "gps_violation", score := 10,
    description := "GPS 이탈", details := some (CaseDetails.gpsViolation 2),
    status := "resolved", resolved_by := some 9, resolve_note := some "확인",
    created_at := 100000, resolved_at := some 200000 }

/-- A database whose only anomaly case is the resolved `caseResolved`. -/
def dbC5 : DB :=
  { workplaces := [], attendance := [], users := [usr1], rules := [],
    anomalies := [caseResolved], notifications := [],
    next_attendance_id := 1, next_anomaly_id := 4 }

/-! ## Concrete instances used by witnesses and counterexamples -/

/-- A stand-in for `int(haversine ...)` that reports a 100 km distance. -/
def havFar : Rat → Rat → Rat → Rat → Int := fun _ _ _ _ => 100000

/-- A workplace at (10, 10) with the default-sized 200 m geofence. -/
def wpW : Workplace :=
  { id := 1, name := "공장", latitude := some 10, longitude := some 10,
    geofence_radius := some 200, qr_code := "WP-AAAA1111", is_active := true }

/-- A database holding just `wpW`. -/
def dbW : DB :=
  { workplaces := [wpW], attendance := [], users := [], rules := [],
    anomalies := [], notifications := [], next_attendance_id := 7,
    next_anomaly_id := 1 }

/-- A submission with latitude exactly 0 (present but Python-falsy). -/
def reqZeroLat : AttendanceCheckReq :=
  { workplace_id := some 1, qr_code := none, check_type := CheckType.check_in,
    latitude := some 0, longitude := some 50, photo_url := none, note := none }

/-- A GPS submission with nonzero coordinates. -/
def reqGps : AttendanceCheckReq :=
  { workplace_id := some 1, qr_code := none, check_type := CheckType.check_in,
    latitude := some 5, longitude := some 50, photo_url := none, note := none }

/-- A submission carrying both a workplace id and a token that matches no
workplace at all. -/
def reqBoth : AttendanceCheckReq :=
  { workplace_id := some 1, qr_code := some "NO-SUCH-TOKEN",
    check_type := CheckType.check_in, latitude := none, longitude := none,
    photo_url := none, note := none }

/-- The `gps_violation` rule row with a configurable stored threshold. -/
def ruleGps (t : Option Int) : AnomalyRule :=
  { rule_key := "gps_violation", is_active := true, threshold := t,
    score := 10 }

/-- The `absent_3days` rule row with a configurable stored threshold. -/
def ruleAbsent (t : Option Int) : AnomalyRule :=
  { rule_key := "absent_3days", is_active := true, threshold := t,
    score := 20 }

/-- The `no_checkout_3` rule row with a configurable stored threshold. -/
def ruleNc (t : Option Int) : AnomalyRule :=
  { rule_key := "no_checkout_3", is_active := true, threshold := t,
    score := 15 }

/-- An invalid (geofence-violating) attendance record for worker 1. -/
def recInvalid (i : Nat) (t : Int) : AttendanceRecord :=
  { id := i, user_id := 1, workplace_id := 1,
    check_type := CheckType.check_in, check_method := "gps",
    latitude := some 5, longitude := some 50,
    distance_from_workplace := some 100000, is_valid := false,
    invalid_reason := some (invalidReasonMsg 100000 200), photo_url := none,
    ip_address := none, note := none, check_time := t }

/-- A valid check-in record for worker 1. -/
def recCheckin (i : Nat) (t : Int) : AttendanceRecord :=
  { id := i, user_id := 1, workplace_id := 1,
    check_type := CheckType.check_in, check_method := "gps",
    latitude := some 10, longitude := some 10,
    distance_from_workplace := some 10, is_valid := true,
    invalid_reason := none, photo_url := none, ip_address := none,
    note := none, check_time := t }

/-- An open `gps_violation` case created just inside the 7-day dedup
window of time 691200 and just outside that of 691400. -/
def caseGpsOld : AnomalyCase :=
  { id := 1, user_id := 1, anomaly_type := "gps_violation", score := 10,
    description := "이전 GPS 이탈", details := some (CaseDetails.gpsViolation 2),
    status := "detected", resolved_by := none, resolve_note := none,
    created_at := 86500, resolved_at := none }

/-- Scan state for the idempotence counterexample: two invalid records in
the current 7-day window and one open case about to age out of it. -/
def dbC3 : DB :=
  { workplaces := [], attendance := [recInvalid 1 687600, recInvalid 2 687000],
    users := [usr1], rules := [ruleGps none], anomalies := [caseGpsOld],
    notifications := [], next_attendance_id := 3, next_anomaly_id := 2 }

/-- Scan state for the gps-threshold counterexample: the stored threshold
is 50 but the worker has only 2 violations. -/
def dbC4 : DB :=
  { workplaces := [], attendance := [recInvalid 1 862000, recInvalid 2 863000],
    users := [usr1], rules := [ruleGps (some 50)], anomalies := [],
    notifications := [], next_attendance_id := 3, next_anomaly_id := 1 }

/-- Scan state exercising the absent-streak threshold: worker 1 last
checked in on day 6, scanned on day 10 (4 days absent). -/
def dbAbsent (t : Option Int) : DB :=
  { workplaces := [], attendance := [recCheckin 1 518400],
    users := [usr1], rules := [ruleAbsent t], anomalies := [],
    notifications := [], next_attendance_id := 2, next_anomaly_id := 1 }

/-- Scan state exercising the no-checkout threshold: worker 1 has three
check-ins in the window and no check-out at all. -/
def dbNc (t : Option Int) : DB :=
  { workplaces := [],
    attendance := [recCheckin 1 700000, recCheckin 2 740000,
      recCheckin 3 820000],
    users := [usr1], rules := [ruleNc t], anomalies := [],
    notifications := [], next_attendance_id := 4, next_anomaly_id := 1 }

/-- A pre-existing `absent_streak` case for worker 1. -/
def caseAbs : AnomalyCase :=
  { id := 7, user_id := 1, anomaly_type := "absent_streak", score := 20,
    description := "이전 결근", details := some (CaseDetails.absentStreak 5 3),
    status := "closed", resolved_by := some 9, resolve_note := some "완료",
    created_at := 500000, resolved_at := some 600000 }

/-- Scan state for a worker who has never checked in: the absent-streak
rule is active but the worker has no attendance rows; one old case for
the worker already exists. -/
def dbC8 : DB :=
  { workplaces := [], attendance := [], users := [usr1],
    rules := [ruleAbsent (some 3)], anomalies := [caseAbs],
    notifications := [], next_attendance_id := 1, next_anomaly_id := 8 }

/-- Replace the stored threshold of the `gps_violation` rule rows, leaving
every other column and row unchanged. -/
def setGpsThreshold (v : Option Int) (db : DB) : DB :=
  { db with rules := db.rules.map fun r =>
      if r.rule_key = "gps_violation" then { r with threshold := v } else r }

/-- The workplace database after regenerating workplace 1's QR token. -/
def dbWregen : DB :=
  { dbW with workplaces := [{ wpW with qr_code := "WP-NEW12345" }] }

/-- A submission that presents the pre-regeneration QR token of `wpW`. -/
def reqOldQr : AttendanceCheckReq :=
  { workplace_id := none, qr_code := some "WP-AAAA1111",
    check_type := CheckType.check_in, latitude := none, longitude := none,
    photo_url := none, note := none }

/-! ## Helper lemmas -/

/-- `hasRecentDup` is exactly the existence of a matching record in the
5-minute window. -/
theorem hasRecentDup_eq_true_iff (att : List AttendanceRecord)
    (uid wid : Nat) (ct : CheckType) (now : Int) :
    hasRecentDup att uid wid ct now = true ↔
      ∃ r ∈ att, r.user_id = uid ∧ r.workplace_id = wid ∧
        r.check_type = ct ∧ r.check_time > now - 300 := by
  simp [hasRecentDup, List.any_eq_true, and_assoc]

/-! ## C1 -/

/-- C1, counterexample.  Both the submitted and the registered coordinates
are present (`isSome`) and the computed distance (100000 m) far exceeds the
200 m radius, yet the stored record and the response keep `is_valid = true`
with a null `invalid_reason` (and a null distance): the code tests the
coordinates for truthiness, and latitude 0 is falsy, so the distance check
is skipped and the claim fails as stated. -/
theorem C1_counterexample :
    (reqZeroLat.latitude.isSome ∧ reqZeroLat.longitude.isSome ∧
      wpW.latitude.isSome ∧ wpW.longitude.isSome) ∧
    havFar 0 50 10 10 > intOr wpW.geofence_radius 200 ∧
    ∃ resp db',
      attendance_check havFar dbW 1000 42 none reqZeroLat
        = Except.ok (resp, db') ∧
      resp.is_valid = true ∧ resp.invalid_reason = none ∧
      db'.attendance.map (fun r => (r.is_valid, r.invalid_reason))
        = [(true, none)] :=
  ⟨⟨rfl, rfl, rfl, rfl⟩, by decide, _, _, rfl, rfl, rfl, rfl⟩

/-- C1, amended: when all four coordinates are present *and nonzero*
(Python-truthy), a computed distance exceeding the radius yields
`is_valid = false` and an `invalid_reason` embedding the distance and the
radius, in the response and in the persisted record alike; a distance
within the radius keeps validity `true` with a null reason. -/
theorem C1_geofence_validation (hav : Rat → Rat → Rat → Rat → Int) (db : DB)
    (now : Int) (uid : Nat) (ip : Option String) (data : AttendanceCheckReq)
    (wid : Nat) (wp : Workplace)
    (hw : data.workplace_id = some wid) (hw0 : wid ≠ 0)
    (hfind : findWorkplace db.workplaces wid = some wp)
    (hlat : ratTruthy data.latitude = true)
    (hlon : ratTruthy data.longitude = true)
    (hwlat : ratTruthy wp.latitude = true)
    (hwlon : ratTruthy wp.longitude = true)
    (hdup : hasRecentDup db.attendance uid wid data.check_type now = false) :
    ∃ resp db',
      attendance_check hav db now uid ip data = Except.ok (resp, db') ∧
      db'.attendance.map
          (fun r => (r.is_valid, r.invalid_reason, r.distance_from_workplace))
        = db.attendance.map
            (fun r => (r.is_valid, r.invalid_reason, r.distance_from_workplace))
          ++ [(resp.is_valid, resp.invalid_reason, resp.distance)] ∧
      resp.distance = some (hav ((data.latitude).getD 0)
        ((data.longitude).getD 0) ((wp.latitude).getD 0)
        ((wp.longitude).getD 0)) ∧
      (hav ((data.latitude).getD 0) ((data.longitude).getD 0)
          ((wp.latitude).getD 0) ((wp.longitude).getD 0)
          > intOr wp.geofence_radius 200 →
        resp.is_valid = false ∧
        resp.invalid_reason = some (invalidReasonMsg
          (hav ((data.latitude).getD 0) ((data.longitude).getD 0)
            ((wp.latitude).getD 0) ((wp.longitude).getD 0))
          (intOr wp.geofence_radius 200)) ∧
        (∃ p q p' q' : String,
          invalidReasonMsg
            (hav ((data.latitude).getD 0) ((data.longitude).getD 0)
              ((wp.latitude).getD 0) ((wp.longitude).getD 0))
            (intOr wp.geofence_radius 200)
            = p ++ toString (hav ((data.latitude).getD 0)
                ((data.longitude).getD 0) ((wp.latitude).getD 0)
                ((wp.longitude).getD 0)) ++ q ∧
          invalidReasonMsg
            (hav ((data.latitude).getD 0) ((data.longitude).getD 0)
              ((wp.latitude).getD 0) ((wp.longitude).getD 0))
            (intOr wp.geofence_radius 200)
            = p' ++ toString (intOr wp.geofence_radius 200) ++ q')) ∧
      (hav ((data.latitude).getD 0) ((data.longitude).getD 0)
          ((wp.latitude).getD 0) ((wp.longitude).getD 0)
          ≤ intOr wp.geofence_radius 200 →
        resp.is_valid = true ∧ resp.invalid_reason = none) := by
  have hembed1 : ∀ d radius : Int, ∃ p q : String,
      invalidReasonMsg d radius = p ++ toString d ++ q := by
    intro d radius
    refine ⟨"사업장에서 ",
      "m 떨어져 있습니다 (허용: " ++ toString radius ++ "m)", ?_⟩
    simp [invalidReasonMsg, String.append_assoc]
  have hembed2 : ∀ d radius : Int, ∃ p q : String,
      invalidReasonMsg d radius = p ++ toString radius ++ q := by
    intro d radius
    refine ⟨"사업장에서 " ++ toString d ++ "m 떨어져 있습니다 (허용: ",
      "m)", ?_⟩
    simp [invalidReasonMsg, String.append_assoc]
  by_cases hd : intOr wp.geofence_radius 200 <
      hav ((data.latitude).getD 0) ((data.longitude).getD 0)
        ((wp.latitude).getD 0) ((wp.longitude).getD 0)
  · simp [attendance_check, hw, hfind, natTruthy, hlat, hlon, hwlat, hwlon,
      hdup, hw0, hd, bind, Except.bind]
    exact ⟨_, _, ⟨rfl, rfl⟩, by simp, rfl, ⟨rfl, rfl, hembed1 _ _, hembed2 _ _⟩⟩
  · simp [attendance_check, hw, hfind, natTruthy, hlat, hlon, hwlat, hwlon,
      hdup, hw0, hd, bind, Except.bind]
    exact ⟨_, _, ⟨rfl, rfl⟩, by simp, rfl, fun _ => ⟨rfl, rfl⟩⟩

/-- C1 witness: the amended theorem applied to `reqGps` against `dbW`
(distance 100000 m against a 200 m geofence). -/
theorem C1_geofence_validation_witness :
    ∃ resp db',
      attendance_check havFar dbW 1000 42 none reqGps
        = Except.ok (resp, db') ∧
      db'.attendance.map
          (fun r => (r.is_valid, r.invalid_reason, r.distance_from_workplace))
        = dbW.attendance.map
            (fun r => (r.is_valid, r.invalid_reason, r.distance_from_workplace))
          ++ [(resp.is_valid, resp.invalid_reason, resp.distance)] ∧
      resp.distance = some (havFar ((reqGps.latitude).getD 0)
        ((reqGps.longitude).getD 0) ((wpW.latitude).getD 0)
        ((wpW.longitude).getD 0)) ∧
      (havFar ((reqGps.latitude).getD 0) ((reqGps.longitude).getD 0)
          ((wpW.latitude).getD 0) ((wpW.longitude).getD 0)
          > intOr wpW.geofence_radius 200 →
        resp.is_valid = false ∧
        resp.invalid_reason = some (invalidReasonMsg
          (havFar ((reqGps.latitude).getD 0) ((reqGps.longitude).getD 0)
            ((wpW.latitude).getD 0) ((wpW.longitude).getD 0))
          (intOr wpW.geofence_radius 200)) ∧
        (∃ p q p' q' : String,
          invalidReasonMsg
            (havFar ((reqGps.latitude).getD 0) ((reqGps.longitude).getD 0)
              ((wpW.latitude).getD 0) ((wpW.longitude).getD 0))
            (intOr wpW.geofence_radius 200)
            = p ++ toString (havFar ((reqGps.latitude).getD 0)
                ((reqGps.longitude).getD 0) ((wpW.latitude).getD 0)
                ((wpW.longitude).getD 0)) ++ q ∧
          invalidReasonMsg
            (havFar ((reqGps.latitude).getD 0) ((reqGps.longitude).getD 0)
              ((wpW.latitude).getD 0) ((wpW.longitude).getD 0))
            (intOr wpW.geofence_radius 200)
            = p' ++ toString (intOr wpW.geofence_radius 200) ++ q')) ∧
      (havFar ((reqGps.latitude).getD 0) ((reqGps.longitude).getD 0)
          ((wpW.latitude).getD 0) ((wpW.longitude).getD 0)
          ≤ intOr wpW.geofence_radius 200 →
        resp.is_valid = true ∧ resp.invalid_reason = none) :=
  C1_geofence_validation havFar dbW 1000 42 none reqGps 1 wpW rfl
    (by decide) rfl rfl rfl rfl rfl rfl

/-! ## C2 -/

/-- C2: the duplicate suppressor.  With the workplace resolved, a prior
record for the same (worker, workplace, check_type) newer than 5 minutes
makes the submission fail with 429 and nothing is written (the error result
carries no new state, matching the `raise` before the `INSERT`); when every
matching record is at least 5 minutes old the submission goes through and
appends exactly one record.  The window is keyed on the check_type, so a
`check_in` record never blocks a `check_out`: the second conjunct's
quantifier ranges only over records of the submitted type. -/
theorem C2_duplicate_suppression (hav : Rat → Rat → Rat → Rat → Int)
    (db : DB) (now : Int) (uid : Nat) (ip : Option String)
    (data : AttendanceCheckReq) (wid : Nat) (wp : Workplace)
    (hw : data.workplace_id = some wid) (hw0 : wid ≠ 0)
    (hfind : findWorkplace db.workplaces wid = some wp) :
    ((∃ r ∈ db.attendance, r.user_id = uid ∧ r.workplace_id = wid ∧
        r.check_type = data.check_type ∧ r.check_time > now - 300) →
      attendance_check hav db now uid ip data
        = Except.error ⟨429, "5분 이내 중복 체크입니다"⟩) ∧
    ((∀ r ∈ db.attendance, r.user_id = uid → r.workplace_id = wid →
        r.check_type = data.check_type → r.check_time ≤ now - 300) →
      ∃ resp db',
        attendance_check hav db now uid ip data = Except.ok (resp, db') ∧
        ∃ r', db'.attendance = db.attendance ++ [r'] ∧
          r'.user_id = uid ∧ r'.workplace_id = wid ∧
          r'.check_type = data.check_type ∧ r'.check_time = now) := by
  constructor
  · intro h
    have hdup : hasRecentDup db.attendance uid wid data.check_type now = true :=
      (hasRecentDup_eq_true_iff db.attendance uid wid data.check_type now).mpr h
    simp [attendance_check, hw, hfind, natTruthy, hw0, hdup, bind, Except.bind]
  · intro h
    have hdup : hasRecentDup db.attendance uid wid data.check_type now = false := by
      rw [← Bool.not_eq_true, hasRecentDup_eq_true_iff]
      rintro ⟨r, hr, h1, h2, h3, h4⟩
      exact absurd h4 (not_lt.mpr (h r hr h1 h2 h3))
    simp [attendance_check, hw, hfind, natTruthy, hw0, hdup, bind, Except.bind]
    exact ⟨_, _, ⟨rfl, rfl⟩, _, rfl, rfl, rfl, rfl, rfl⟩

/-- C2 witness: against the empty ledger of `dbW` the submission succeeds
and writes one record. -/
theorem C2_duplicate_suppression_witness :
    ((∃ r ∈ dbW.attendance, r.user_id = 42 ∧ r.workplace_id = 1 ∧
        r.check_type = reqGps.check_type ∧ r.check_time > 1000 - 300) →
      attendance_check havFar dbW 1000 42 none reqGps
        = Except.error ⟨429, "5분 이내 중복 체크입니다"⟩) ∧
    ((∀ r ∈ dbW.attendance, r.user_id = 42 → r.workplace_id = 1 →
        r.check_type = reqGps.check_type → r.check_time ≤ 1000 - 300) →
      ∃ resp db',
        attendance_check havFar dbW 1000 42 none reqGps
          = Except.ok (resp, db') ∧
        ∃ r', db'.attendance = dbW.attendance ++ [r'] ∧
          r'.user_id = 42 ∧ r'.workplace_id = 1 ∧
          r'.check_type = reqGps.check_type ∧ r'.check_time = 1000) :=
  C2_duplicate_suppression havFar dbW 1000 42 none reqGps 1 wpW rfl
    (by decide) rfl

/-! ## C9 -/

/-- C9: a submitted latitude or longitude of exactly 0 (or a workplace
with a stored 0 coordinate) is Python-falsy, so the whole distance check
is skipped: the record is stored with `is_valid = true`, a null distance
and a null reason, for every possible haversine distance `hav` — in
particular when the submitted position is far outside the geofence. -/
theorem C9_zero_coordinate_skips_check (hav : Rat → Rat → Rat → Rat → Int)
    (db : DB) (now : Int) (uid : Nat) (ip : Option String)
    (data : AttendanceCheckReq) (wid : Nat) (wp : Workplace)
    (hw : data.workplace_id = some wid) (hw0 : wid ≠ 0)
    (hfind : findWorkplace db.workplaces wid = some wp)
    (hdup : hasRecentDup db.attendance uid wid data.check_type now = false)
    (hzero : data.latitude = some 0 ∨ data.longitude = some 0 ∨
      wp.latitude = some 0 ∨ wp.longitude = some 0) :
    ∃ resp db',
      attendance_check hav db now uid ip data = Except.ok (resp, db') ∧
      resp.is_valid = true ∧ resp.distance = none ∧
      resp.invalid_reason = none ∧
      db'.attendance.map
          (fun r => (r.is_valid, r.invalid_reason, r.distance_from_workplace))
        = db.attendance.map
            (fun r => (r.is_valid, r.invalid_reason, r.distance_from_workplace))
          ++ [(true, none, none)] := by
  rcases hzero with h | h | h | h <;>
    simp [attendance_check, hw, hfind, natTruthy, hw0, hdup, h, ratTruthy,
      bind, Except.bind] <;>
    exact ⟨_, _, ⟨rfl, rfl⟩, rfl, rfl, rfl, by simp⟩

/-- C9 witness: latitude exactly 0 against `dbW`, with `havFar` reporting
a 100 km distance; the record is still stored valid with a null distance. -/
theorem C9_zero_coordinate_skips_check_witness :
    ∃ resp db',
      attendance_check havFar dbW 1000 42 none reqZeroLat
        = Except.ok (resp, db') ∧
      resp.is_valid = true ∧ resp.distance = none ∧
      resp.invalid_reason = none ∧
      db'.attendance.map
          (fun r => (r.is_valid, r.invalid_reason, r.distance_from_workplace))
        = dbW.attendance.map
            (fun r => (r.is_valid, r.invalid_reason, r.distance_from_workplace))
          ++ [(true, none, none)] :=
  C9_zero_coordinate_skips_check havFar dbW 1000 42 none reqZeroLat 1 wpW
    rfl (by decide) rfl rfl (Or.inl rfl)

/-! ## C10 -/

/-- C10: when both `workplace_id` and a non-empty `qr_code` are supplied,
resolution uses the `workplace_id` alone — `q` is arbitrary here and never
compared to any workplace token — yet the stored record's `check_method`
is `"qr"` merely because a qr_code was present. -/
theorem C10_qr_ignored_with_workplace_id (hav : Rat → Rat → Rat → Rat → Int)
    (db : DB) (now : Int) (uid : Nat) (ip : Option String)
    (data : AttendanceCheckReq) (wid : Nat) (wp : Workplace) (q : String)
    (hw : data.workplace_id = some wid) (hw0 : wid ≠ 0)
    (hq : data.qr_code = some q) (hq0 : q ≠ "")
    (hfind : findWorkplace db.workplaces wid = some wp)
    (hdup : hasRecentDup db.attendance uid wid data.check_type now = false) :
    ∃ resp db',
      attendance_check hav db now uid ip data = Except.ok (resp, db') ∧
      db'.attendance.map (fun r => (r.workplace_id, r.check_method))
        = db.attendance.map (fun r => (r.workplace_id, r.check_method))
          ++ [(wid, "qr")] := by
  simp [attendance_check, hw, hq, hq0, natTruthy, strTruthy, hw0, hfind,
    hdup, bind, Except.bind]
  exact ⟨_, _, ⟨rfl, rfl⟩, by simp⟩

/-- C10 witness: the token `"NO-SUCH-TOKEN"` matches no workplace of
`dbW`, yet the check succeeds against workplace 1 and is tagged `qr`. -/
theorem C10_qr_ignored_with_workplace_id_witness :
    ∃ resp db',
      attendance_check havFar dbW 1000 42 none reqBoth
        = Except.ok (resp, db') ∧
      db'.attendance.map (fun r => (r.workplace_id, r.check_method))
        = dbW.attendance.map (fun r => (r.workplace_id, r.check_method))
          ++ [(1, "qr")] :=
  C10_qr_ignored_with_workplace_id havFar dbW 1000 42 none reqBoth 1 wpW
    "NO-SUCH-TOKEN" rfl (by decide) rfl (by decide) rfl rfl

/-! ## Scan loop lemmas -/

/-- `hasOpenCase` is exactly the existence of a matching open case. -/
theorem hasOpenCase_eq_true_iff (anoms : List AnomalyCase) (uid : Nat)
    (ty : String) (window : Int → Bool) :
    hasOpenCase anoms uid ty window = true ↔
      ∃ c ∈ anoms, c.user_id = uid ∧ c.anomaly_type = ty ∧
        openStatus c.status = true ∧ window c.created_at = true := by
  simp [hasOpenCase, List.any_eq_true, and_assoc]

/-- The absent-streak loop only appends, and every appended case is a fresh
`absent_streak` detection created now. -/
theorem absentLoop_append (score threshold : Int)
    (att : List AttendanceRecord) (today now : Int) (ws : List User) :
    ∀ (anoms : List AnomalyCase) (nid : Nat),
      ∃ ext, (absentLoop score threshold att today now ws anoms nid).1
          = anoms ++ ext ∧
        ∀ c ∈ ext, c.anomaly_type = "absent_streak" ∧ c.created_at = now ∧
          c.status = "detected" := by
  induction ws with
  | nil => intro anoms nid; exact ⟨[], by simp [absentLoop], by simp⟩
  | cons w ws ih =>
    intro anoms nid
    rcases hlc : lastCheckinDate att w.id with _ | last
    · simpa [absentLoop, hlc] using ih anoms nid
    · by_cases hth : today - last ≥ threshold
      · by_cases hdp : hasOpenCase anoms w.id "absent_streak" (sameDayWindow today) = true
        · simpa [absentLoop, hlc, hth, hdp] using ih anoms nid
        · obtain ⟨ext, h1, h2⟩ := ih (anoms ++
            [mkCase nid w.id "absent_streak" score
              (w.name ++ " - " ++ toString (today - last) ++ "일 연속 결근")
              (CaseDetails.absentStreak (today - last) last) now]) (nid + 1)
          refine ⟨mkCase nid w.id "absent_streak" score
              (w.name ++ " - " ++ toString (today - last) ++ "일 연속 결근")
              (CaseDetails.absentStreak (today - last) last) now :: ext, ?_, ?_⟩
          · simp only [absentLoop, hlc, hth, if_pos, hdp, if_neg,
              Bool.false_eq_true, not_false_iff]
            rw [h1, List.append_assoc]
            rfl
          · intro c hc
            rcases List.mem_cons.mp hc with hc | hc
            · subst hc; exact ⟨rfl, rfl, rfl⟩
            · exact h2 c hc
      · simpa [absentLoop, hlc, hth] using ih anoms nid

/-- After the absent-streak loop runs, every detectable roster worker has
an open `absent_streak` case in the resulting table: either one that was
already there and matched the same-day dedup window, or one freshly
created now. -/
theorem absentLoop_covers (score threshold : Int)
    (att : List AttendanceRecord) (today now : Int) (ws : List User) :
    ∀ (anoms : List AnomalyCase) (nid : Nat), ∀ w ∈ ws, ∀ last : Int,
      lastCheckinDate att w.id = some last → today - last ≥ threshold →
      ∃ c ∈ (absentLoop score threshold att today now ws anoms nid).1,
        c.user_id = w.id ∧ c.anomaly_type = "absent_streak" ∧
        openStatus c.status = true ∧
        ((c ∈ anoms ∧ sameDayWindow today c.created_at = true) ∨
          c.created_at = now) := by
  induction ws with
  | nil => intro anoms nid w hw; exact absurd hw (by simp)
  | cons w0 ws ih =>
    intro anoms nid w hw last hlast hth
    rcases List.mem_cons.mp hw with hw | hw
    · subst hw
      by_cases hdp : hasOpenCase anoms w.id "absent_streak" (sameDayWindow today) = true
      · obtain ⟨c, hcmem, hcu, hcty, hcop, hcwin⟩ :=
          (hasOpenCase_eq_true_iff anoms w.id "absent_streak"
            (sameDayWindow today)).mp hdp
        obtain ⟨ext, h1, _⟩ :=
          absentLoop_append score threshold att today now ws anoms nid
        refine ⟨c, ?_, hcu, hcty, hcop, Or.inl ⟨hcmem, hcwin⟩⟩
        simp only [absentLoop, hlast, hth, if_pos, hdp]
        rw [h1]
        exact List.mem_append_left ext hcmem
      · obtain ⟨ext, h1, _⟩ := absentLoop_append score threshold att today
          now ws (anoms ++
            [mkCase nid w.id "absent_streak" score
              (w.name ++ " - " ++ toString (today - last) ++ "일 연속 결근")
              (CaseDetails.absentStreak (today - last) last) now]) (nid + 1)
        refine ⟨mkCase nid w.id "absent_streak" score
            (w.name ++ " - " ++ toString (today - last) ++ "일 연속 결근")
            (CaseDetails.absentStreak (today - last) last) now,
          ?_, rfl, rfl, rfl, Or.inr rfl⟩
        simp only [absentLoop, hlast, hth, if_pos, hdp, if_neg,
          Bool.false_eq_true, not_false_iff]
        rw [h1]
        exact List.mem_append_left ext (by simp)
    · rcases hlc0 : lastCheckinDate att w0.id with _ | last0
      · have := ih anoms nid w hw last hlast hth
        simpa [absentLoop, hlc0] using this
      · by_cases hth0 : today - last0 ≥ threshold
        · by_cases hdp0 : hasOpenCase anoms w0.id "absent_streak" (sameDayWindow today) = true
          · have := ih anoms nid w hw last hlast hth
            simpa [absentLoop, hlc0, hth0, hdp0] using this
          · obtain ⟨c, hcmem, hcu, hcty, hcop, hcdisj⟩ := ih (anoms ++
              [mkCase nid w0.id "absent_streak" score
                (w0.name ++ " - " ++ toString (today - last0) ++ "일 연속 결근")
                (CaseDetails.absentStreak (today - last0) last0) now])
              (nid + 1) w hw last hlast hth
            refine ⟨c, ?_, hcu, hcty, hcop, ?_⟩
            · simp only [absentLoop, hlc0, hth0, if_pos, hdp0, if_neg,
                Bool.false_eq_true, not_false_iff]
              exact hcmem
            · rcases hcdisj with ⟨hcmem', hcwin⟩ | hnow
              · rcases List.mem_append.mp hcmem' with h | h
                · exact Or.inl ⟨h, hcwin⟩
                · have : c = mkCase nid w0.id "absent_streak" score
                      (w0.name ++ " - " ++ toString (today - last0) ++ "일 연속 결근")
                      (CaseDetails.absentStreak (today - last0) last0) now := by
                    simpa using h
                  exact Or.inr (by rw [this]; rfl)
              · exact Or.inr hnow
        · have := ih anoms nid w hw last hlast hth
          simpa [absentLoop, hlc0, hth0] using this

/-- If every detectable roster worker already has an open same-day
`absent_streak` case, the absent-streak loop changes nothing and detects
nothing. -/
theorem absentLoop_no_detect (score threshold : Int)
    (att : List AttendanceRecord) (today now : Int) (ws : List User) :
    ∀ (anoms : List AnomalyCase) (nid : Nat),
      (∀ w ∈ ws, ∀ last : Int, lastCheckinDate att w.id = some last →
        today - last ≥ threshold →
        hasOpenCase anoms w.id "absent_streak" (sameDayWindow today) = true) →
      absentLoop score threshold att today now ws anoms nid
        = (anoms, nid, []) := by
  induction ws with
  | nil => intro anoms nid _; simp [absentLoop]
  | cons w ws ih =>
    intro anoms nid h
    have hws := fun w' hw' => h w' (List.mem_cons_of_mem w hw')
    rcases hlc : lastCheckinDate att w.id with _ | last
    · simpa [absentLoop, hlc] using ih anoms nid hws
    · by_cases hth : today - last ≥ threshold
      · have hdp := h w (List.mem_cons_self w ws) last hlc hth
        simpa [absentLoop, hlc, hth, hdp] using ih anoms nid hws
      · simpa [absentLoop, hlc, hth] using ih anoms nid hws

/-- The GPS-violation loop only appends, and every appended case is a
fresh `gps_violation` detection created now. -/
theorem gpsLoop_append (score : Int) (att : List AttendanceRecord)
    (now : Int) (us : List User) :
    ∀ (anoms : List AnomalyCase) (nid : Nat),
      ∃ ext, (gpsLoop score att now us anoms nid).1 = anoms ++ ext ∧
        ∀ c ∈ ext, c.anomaly_type = "gps_violation" ∧ c.created_at = now ∧
          c.status = "detected" := by
  induction us with
  | nil => intro anoms nid; exact ⟨[], by simp [gpsLoop], by simp⟩
  | cons u us ih =>
    intro anoms nid
    by_cases hc2 : invalidCount7d att u.id now ≥ 2
    · by_cases hdp : hasOpenCase anoms u.id "gps_violation" (gpsWindow now) = true
      · simpa [gpsLoop, hc2, hdp] using ih anoms nid
      · obtain ⟨ext, h1, h2⟩ := ih (anoms ++
          [mkCase nid u.id "gps_violation" score
            (u.name ++ " - 최근 7일 GPS 이탈 " ++
              toString (invalidCount7d att u.id now) ++ "회")
            (CaseDetails.gpsViolation (invalidCount7d att u.id now)) now])
          (nid + 1)
        refine ⟨mkCase nid u.id "gps_violation" score
            (u.name ++ " - 최근 7일 GPS 이탈 " ++
              toString (invalidCount7d att u.id now) ++ "회")
            (CaseDetails.gpsViolation (invalidCount7d att u.id now)) now
            :: ext, ?_, ?_⟩
        · simp only [gpsLoop, hc2, if_pos, hdp, if_neg,
            Bool.false_eq_true, not_false_iff]
          rw [h1, List.append_assoc]
          rfl
        · intro c hc
          rcases List.mem_cons.mp hc with hc | hc
          · subst hc; exact ⟨rfl, rfl, rfl⟩
          · exact h2 c hc
    · simpa [gpsLoop, hc2] using ih anoms nid

/-- After the GPS-violation loop runs, every worker with at least 2
invalid records in the window has an open `gps_violation` case: either a
pre-existing one matching the 7-day dedup window, or one created now. -/
theorem gpsLoop_covers (score : Int) (att : List AttendanceRecord)
    (now : Int) (us : List User) :
    ∀ (anoms : List AnomalyCase) (nid : Nat), ∀ u ∈ us,
      invalidCount7d att u.id now ≥ 2 →
      ∃ c ∈ (gpsLoop score att now us anoms nid).1,
        c.user_id = u.id ∧ c.anomaly_type = "gps_violation" ∧
        openStatus c.status = true ∧
        ((c ∈ anoms ∧ gpsWindow now c.created_at = true) ∨
          c.created_at = now) := by
  induction us with
  | nil => intro anoms nid u hu; exact absurd hu (by simp)
  | cons u0 us ih =>
    intro anoms nid u hu hcnt
    rcases List.mem_cons.mp hu with hu | hu
    · subst hu
      by_cases hdp : hasOpenCase anoms u.id "gps_violation" (gpsWindow now) = true
      · obtain ⟨c, hcmem, hcu, hcty, hcop, hcwin⟩ :=
          (hasOpenCase_eq_true_iff anoms u.id "gps_violation"
            (gpsWindow now)).mp hdp
        obtain ⟨ext, h1, _⟩ := gpsLoop_append score att now us anoms nid
        refine ⟨c, ?_, hcu, hcty, hcop, Or.inl ⟨hcmem, hcwin⟩⟩
        simp only [gpsLoop, hcnt, if_pos, hdp]
        rw [h1]
        exact List.mem_append_left ext hcmem
      · obtain ⟨ext, h1, _⟩ := gpsLoop_append score att now us (anoms ++
          [mkCase nid u.id "gps_violation" score
            (u.name ++ " - 최근 7일 GPS 이탈 " ++
              toString (invalidCount7d att u.id now) ++ "회")
            (CaseDetails.gpsViolation (invalidCount7d att u.id now)) now])
          (nid + 1)
        refine ⟨mkCase nid u.id "gps_violation" score
            (u.name ++ " - 최근 7일 GPS 이탈 " ++
              toString (invalidCount7d att u.id now) ++ "회")
            (CaseDetails.gpsViolation (invalidCount7d att u.id now)) now,
          ?_, rfl, rfl, rfl, Or.inr rfl⟩
        simp only [gpsLoop, hcnt, if_pos, hdp, if_neg,
          Bool.false_eq_true, not_false_iff]
        rw [h1]
        exact List.mem_append_left ext (by simp)
    · by_cases hc20 : invalidCount7d att u0.id now ≥ 2
      · by_cases hdp0 : hasOpenCase anoms u0.id "gps_violation" (gpsWindow now) = true
        · have := ih anoms nid u hu hcnt
          simpa [gpsLoop, hc20, hdp0] using this
        · obtain ⟨c, hcmem, hcu, hcty, hcop, hcdisj⟩ := ih (anoms ++
            [mkCase nid u0.id "gps_violation" score
              (u0.name ++ " - 최근 7일 GPS 이탈 " ++
                toString (invalidCount7d att u0.id now) ++ "회")
              (CaseDetails.gpsViolation (invalidCount7d att u0.id now)) now])
            (nid + 1) u hu hcnt
          refine ⟨c, ?_, hcu, hcty, hcop, ?_⟩
          · simp only [gpsLoop, hc20, if_pos, hdp0, if_neg,
              Bool.false_eq_true, not_false_iff]
            exact hcmem
          · rcases hcdisj with ⟨hcmem', hcwin⟩ | hnow
            · rcases List.mem_append.mp hcmem' with h | h
              · exact Or.inl ⟨h, hcwin⟩
              · have hceq : c = mkCase nid u0.id "gps_violation" score
                    (u0.name ++ " - 최근 7일 GPS 이탈 " ++
                      toString (invalidCount7d att u0.id now) ++ "회")
                    (CaseDetails.gpsViolation
                      (invalidCount7d att u0.id now)) now := by
                  simpa using h
                exact Or.inr (by rw [hceq]; rfl)
            · exact Or.inr hnow
      · have := ih anoms nid u hu hcnt
        simpa [gpsLoop, hc20] using this

/-- If every worker with at least 2 invalid records already has an open
`gps_violation` case within the 7-day window, the GPS loop changes nothing
and detects nothing. -/
theorem gpsLoop_no_detect (score : Int) (att : List AttendanceRecord)
    (now : Int) (us : List User) :
    ∀ (anoms : List AnomalyCase) (nid : Nat),
      (∀ u ∈ us, invalidCount7d att u.id now ≥ 2 →
        hasOpenCase anoms u.id "gps_violation" (gpsWindow now) = true) →
      gpsLoop score att now us anoms nid = (anoms, nid, []) := by
  induction us with
  | nil => intro anoms nid _; simp [gpsLoop]
  | cons u us ih =>
    intro anoms nid h
    have hus := fun u' hu' => h u' (List.mem_cons_of_mem u hu')
    by_cases hc2 : invalidCount7d att u.id now ≥ 2
    · have hdp := h u (List.mem_cons_self u us) hc2
      simpa [gpsLoop, hc2, hdp] using ih anoms nid hus
    · simpa [gpsLoop, hc2] using ih anoms nid hus

/-- The no-checkout loop only appends, and every appended case is a fresh
`no_checkout` detection created now. -/
theorem noCheckoutLoop_append (score threshold : Int)
    (att : List AttendanceRecord) (now : Int) (us : List User) :
    ∀ (anoms : List AnomalyCase) (nid : Nat),
      ∃ ext, (noCheckoutLoop score threshold att now us anoms nid).1
          = anoms ++ ext ∧
        ∀ c ∈ ext, c.anomaly_type = "no_checkout" ∧ c.created_at = now ∧
          c.status = "detected" := by
  induction us with
  | nil => intro anoms nid; exact ⟨[], by simp [noCheckoutLoop], by simp⟩
  | cons u us ih =>
    intro anoms nid
    by_cases hc2 : (noCheckoutCount att u.id now : Int) ≥ threshold
    · by_cases hdp : hasOpenCase anoms u.id "no_checkout" (ncWindow now) = true
      · simpa [noCheckoutLoop, hc2, hdp] using ih anoms nid
      · obtain ⟨ext, h1, h2⟩ := ih (anoms ++
          [mkCase nid u.id "no_checkout" score
            (u.name ++ " - 최근 14일 미퇴근 " ++
              toString (noCheckoutCount att u.id now) ++ "회")
            (CaseDetails.noCheckout (noCheckoutCount att u.id now)) now])
          (nid + 1)
        refine ⟨mkCase nid u.id "no_checkout" score
            (u.name ++ " - 최근 14일 미퇴근 " ++
              toString (noCheckoutCount att u.id now) ++ "회")
            (CaseDetails.noCheckout (noCheckoutCount att u.id now)) now
            :: ext, ?_, ?_⟩
        · simp only [noCheckoutLoop, hc2, if_pos, hdp, if_neg,
            Bool.false_eq_true, not_false_iff]
          rw [h1, List.append_assoc]
          rfl
        · intro c hc
          rcases List.mem_cons.mp hc with hc | hc
          · subst hc; exact ⟨rfl, rfl, rfl⟩
          · exact h2 c hc
    · simpa [noCheckoutLoop, hc2] using ih anoms nid

/-- After the no-checkout loop runs, every worker at or above the
threshold has an open `no_checkout` case: either a pre-existing one
matching the 14-day dedup window, or one created now. -/
theorem noCheckoutLoop_covers (score threshold : Int)
    (att : List AttendanceRecord) (now : Int) (us : List User) :
    ∀ (anoms : List AnomalyCase) (nid : Nat), ∀ u ∈ us,
      (noCheckoutCount att u.id now : Int) ≥ threshold →
      ∃ c ∈ (noCheckoutLoop score threshold att now us anoms nid).1,
        c.user_id = u.id ∧ c.anomaly_type = "no_checkout" ∧
        openStatus c.status = true ∧
        ((c ∈ anoms ∧ ncWindow now c.created_at = true) ∨
          c.created_at = now) := by
  induction us with
  | nil => intro anoms nid u hu; exact absurd hu (by simp)
  | cons u0 us ih =>
    intro anoms nid u hu hcnt
    rcases List.mem_cons.mp hu with hu | hu
    · subst hu
      by_cases hdp : hasOpenCase anoms u.id "no_checkout" (ncWindow now) = true
      · obtain ⟨c, hcmem, hcu, hcty, hcop, hcwin⟩ :=
          (hasOpenCase_eq_true_iff anoms u.id "no_checkout"
            (ncWindow now)).mp hdp
        obtain ⟨ext, h1, _⟩ :=
          noCheckoutLoop_append score threshold att now us anoms nid
        refine ⟨c, ?_, hcu, hcty, hcop, Or.inl ⟨hcmem, hcwin⟩⟩
        simp only [noCheckoutLoop, hcnt, if_pos, hdp]
        rw [h1]
        exact List.mem_append_left ext hcmem
      · obtain ⟨ext, h1, _⟩ := noCheckoutLoop_append score threshold att now
          us (anoms ++
            [mkCase nid u.id "no_checkout" score
              (u.name ++ " - 최근 14일 미퇴근 " ++
                toString (noCheckoutCount att u.id now) ++ "회")
              (CaseDetails.noCheckout (noCheckoutCount att u.id now)) now])
          (nid + 1)
        refine ⟨mkCase nid u.id "no_checkout" score
            (u.name ++ " - 최근 14일 미퇴근 " ++
              toString (noCheckoutCount att u.id now) ++ "회")
            (CaseDetails.noCheckout (noCheckoutCount att u.id now)) now,
          ?_, rfl, rfl, rfl, Or.inr rfl⟩
        simp only [noCheckoutLoop, hcnt, if_pos, hdp, if_neg,
          Bool.false_eq_true, not_false_iff]
        rw [h1]
        exact List.mem_append_left ext (by simp)
    · by_cases hc20 : (noCheckoutCount att u0.id now : Int) ≥ threshold
      · by_cases hdp0 : hasOpenCase anoms u0.id "no_checkout" (ncWindow now) = true
        · have := ih anoms nid u hu hcnt
          simpa [noCheckoutLoop, hc20, hdp0] using this
        · obtain ⟨c, hcmem, hcu, hcty, hcop, hcdisj⟩ := ih (anoms ++
            [mkCase nid u0.id "no_checkout" score
              (u0.name ++ " - 최근 14일 미퇴근 " ++
                toString (noCheckoutCount att u0.id now) ++ "회")
              (CaseDetails.noCheckout (noCheckoutCount att u0.id now)) now])
            (nid + 1) u hu hcnt
          refine ⟨c, ?_, hcu, hcty, hcop, ?_⟩
          · simp only [noCheckoutLoop, hc20, if_pos, hdp0, if_neg,
              Bool.false_eq_true, not_false_iff]
            exact hcmem
          · rcases hcdisj with ⟨hcmem', hcwin⟩ | hnow
            · rcases List.mem_append.mp hcmem' with h | h
              · exact Or.inl ⟨h, hcwin⟩
              · have hceq : c = mkCase nid u0.id "no_checkout" score
                    (u0.name ++ " - 최근 14일 미퇴근 " ++
                      toString (noCheckoutCount att u0.id now) ++ "회")
                    (CaseDetails.noCheckout
                      (noCheckoutCount att u0.id now)) now := by
                  simpa using h
                exact Or.inr (by rw [hceq]; rfl)
            · exact Or.inr hnow
      · have := ih anoms nid u hu hcnt
        simpa [noCheckoutLoop, hc20] using this

/-- If every worker at or above the threshold already has an open
`no_checkout` case within the 14-day window, the no-checkout loop changes
nothing and detects nothing. -/
theorem noCheckoutLoop_no_detect (score threshold : Int)
    (att : List AttendanceRecord) (now : Int) (us : List User) :
    ∀ (anoms : List AnomalyCase) (nid : Nat),
      (∀ u ∈ us, (noCheckoutCount att u.id now : Int) ≥ threshold →
        hasOpenCase anoms u.id "no_checkout" (ncWindow now) = true) →
      noCheckoutLoop score threshold att now us anoms nid
        = (anoms, nid, []) := by
  induction us with
  | nil => intro anoms nid _; simp [noCheckoutLoop]
  | cons u us ih =>
    intro anoms nid h
    have hus := fun u' hu' => h u' (List.mem_cons_of_mem u hu')
    by_cases hc2 : (noCheckoutCount att u.id now : Int) ≥ threshold
    · have hdp := h u (List.mem_cons_self u us) hc2
      simpa [noCheckoutLoop, hc2, hdp] using ih anoms nid hus
    · simpa [noCheckoutLoop, hc2] using ih anoms nid hus

/-- Stage 1 only appends `absent_streak` cases created now. -/
theorem absentStage_append (rules : List AnomalyRule)
    (att : List AttendanceRecord) (today now : Int) (users : List User)
    (anoms : List AnomalyCase) (nid : Nat) :
    ∃ ext, (absentStage rules att today now users anoms nid).1
        = anoms ++ ext ∧
      ∀ c ∈ ext, c.anomaly_type = "absent_streak" ∧ c.created_at = now ∧
        c.status = "detected" := by
  rcases hR : rulesDict rules "absent_3days" with _ | rule <;>
    simp only [absentStage, hR]
  · exact ⟨[], by simp, by simp⟩
  · exact absentLoop_append rule.score (intOr rule.threshold 3) att today now
      (applicants users) anoms nid

/-- Stage 2 only appends `gps_violation` cases created now. -/
theorem gpsStage_append (rules : List AnomalyRule)
    (att : List AttendanceRecord) (now : Int) (users : List User)
    (anoms : List AnomalyCase) (nid : Nat) :
    ∃ ext, (gpsStage rules att now users anoms nid).1 = anoms ++ ext ∧
      ∀ c ∈ ext, c.anomaly_type = "gps_violation" ∧ c.created_at = now ∧
        c.status = "detected" := by
  rcases hR : rulesDict rules "gps_violation" with _ | rule <;>
    simp only [gpsStage, hR]
  · exact ⟨[], by simp, by simp⟩
  · exact gpsLoop_append rule.score att now users anoms nid

/-- Stage 3 only appends `no_checkout` cases created now. -/
theorem ncStage_append (rules : List AnomalyRule)
    (att : List AttendanceRecord) (now : Int) (users : List User)
    (anoms : List AnomalyCase) (nid : Nat) :
    ∃ ext, (ncStage rules att now users anoms nid).1 = anoms ++ ext ∧
      ∀ c ∈ ext, c.anomaly_type = "no_checkout" ∧ c.created_at = now ∧
        c.status = "detected" := by
  rcases hR : rulesDict rules "no_checkout_3" with _ | rule <;>
    simp only [ncStage, hR]
  · exact ⟨[], by simp, by simp⟩
  · exact noCheckoutLoop_append rule.score (intOr rule.threshold 3) att now
      users anoms nid

/-- The scan as a whole only appends cases, each freshly created now with
the initial `detected` status. -/
theorem scanAnoms_append (db : DB) (now : Int) :
    ∃ ext, (scan_anomalies db now).2.anomalies = db.anomalies ++ ext ∧
      ∀ c ∈ ext, c.created_at = now ∧ c.status = "detected" := by
  obtain ⟨e1, h1, p1⟩ := absentStage_append db.rules db.attendance
    (dateOf now) now db.users db.anomalies db.next_anomaly_id
  obtain ⟨e2, h2, p2⟩ := gpsStage_append db.rules db.attendance now db.users
    (absentStage db.rules db.attendance (dateOf now) now db.users
      db.anomalies db.next_anomaly_id).1
    (absentStage db.rules db.attendance (dateOf now) now db.users
      db.anomalies db.next_anomaly_id).2.1
  obtain ⟨e3, h3, p3⟩ := ncStage_append db.rules db.attendance now db.users
    (gpsStage db.rules db.attendance now db.users
      (absentStage db.rules db.attendance (dateOf now) now db.users
        db.anomalies db.next_anomaly_id).1
      (absentStage db.rules db.attendance (dateOf now) now db.users
        db.anomalies db.next_anomaly_id).2.1).1
    (gpsStage db.rules db.attendance now db.users
      (absentStage db.rules db.attendance (dateOf now) now db.users
        db.anomalies db.next_anomaly_id).1
      (absentStage db.rules db.attendance (dateOf now) now db.users
        db.anomalies db.next_anomaly_id).2.1).2.1
  refine ⟨e1 ++ e2 ++ e3, ?_, ?_⟩
  · show (ncStage db.rules db.attendance now db.users
      (gpsStage db.rules db.attendance now db.users
        (absentStage db.rules db.attendance (dateOf now) now db.users
          db.anomalies db.next_anomaly_id).1
        (absentStage db.rules db.attendance (dateOf now) now db.users
          db.anomalies db.next_anomaly_id).2.1).1
      (gpsStage db.rules db.attendance now db.users
        (absentStage db.rules db.attendance (dateOf now) now db.users
          db.anomalies db.next_anomaly_id).1
        (absentStage db.rules db.attendance (dateOf now) now db.users
          db.anomalies db.next_anomaly_id).2.1).2.1).1 = _
    rw [h3, h2, h1]
    simp [List.append_assoc]
  · intro c hc
    rcases List.mem_append.mp hc with hc | hc
    · rcases List.mem_append.mp hc with hc | hc
      · exact ⟨(p1 c hc).2.1, (p1 c hc).2.2⟩
      · exact ⟨(p2 c hc).2.1, (p2 c hc).2.2⟩
    · exact ⟨(p3 c hc).2.1, (p3 c hc).2.2⟩

/-- Every case present after the absent-streak loop was either already
there, or belongs to a roster worker who has some last check-in date. -/
theorem absentLoop_new_mem (score threshold : Int)
    (att : List AttendanceRecord) (today now : Int) (ws : List User) :
    ∀ (anoms : List AnomalyCase) (nid : Nat) (c : AnomalyCase),
      c ∈ (absentLoop score threshold att today now ws anoms nid).1 →
      c ∈ anoms ∨ ∃ w ∈ ws, c.user_id = w.id ∧
        ∃ last, lastCheckinDate att w.id = some last := by
  induction ws with
  | nil => intro anoms nid c hc; exact Or.inl (by simpa [absentLoop] using hc)
  | cons w0 ws ih =>
    intro anoms nid c hc
    have weaken : (c ∈ anoms ∨ ∃ w ∈ ws, c.user_id = w.id ∧
        ∃ last, lastCheckinDate att w.id = some last) →
        c ∈ anoms ∨ ∃ w ∈ w0 :: ws, c.user_id = w.id ∧
          ∃ last, lastCheckinDate att w.id = some last := by
      rintro (h | ⟨w, hw, h1, h2⟩)
      · exact Or.inl h
      · exact Or.inr ⟨w, List.mem_cons_of_mem w0 hw, h1, h2⟩
    rcases hlc : lastCheckinDate att w0.id with _ | last0
    · exact weaken (ih anoms nid c (by simpa [absentLoop, hlc] using hc))
    · by_cases hth : today - last0 ≥ threshold
      · by_cases hdp : hasOpenCase anoms w0.id "absent_streak"
            (sameDayWindow today) = true
        · exact weaken (ih anoms nid c
            (by simpa [absentLoop, hlc, hth, hdp] using hc))
        · have hc' : c ∈ (absentLoop score threshold att today now ws
              (anoms ++ [mkCase nid w0.id "absent_streak" score
                (w0.name ++ " - " ++ toString (today - last0) ++ "일 연속 결근")
                (CaseDetails.absentStreak (today - last0) last0) now])
              (nid + 1)).1 := by
            simpa [absentLoop, hlc, hth, hdp] using hc
          rcases ih _ _ c hc' with hmem | ⟨w, hw, h1, h2⟩
          · rcases List.mem_append.mp hmem with hmem | hmem
            · exact Or.inl hmem
            · have hceq : c = mkCase nid w0.id "absent_streak" score
                  (w0.name ++ " - " ++ toString (today - last0) ++ "일 연속 결근")
                  (CaseDetails.absentStreak (today - last0) last0) now := by
                simpa using hmem
              exact Or.inr ⟨w0, List.mem_cons_self w0 ws,
                by rw [hceq]; rfl, last0, hlc⟩
          · exact Or.inr ⟨w, List.mem_cons_of_mem w0 hw, h1, h2⟩
      · exact weaken (ih anoms nid c
          (by simpa [absentLoop, hlc, hth] using hc))

/-- Mapping a function that fixes every element of a list is the
identity. -/
theorem listMap_id_of_mem {α : Type} (l : List α) (f : α → α)
    (h : ∀ a ∈ l, f a = a) : l.map f = l := by
  induction l with
  | nil => rfl
  | cons x xs ih =>
    simp only [List.map_cons, h x (List.mem_cons_self x xs),
      ih (fun a ha => h a (List.mem_cons_of_mem x ha))]

/-! ## C7 -/

/-- C7, counterexample.  `dbC5` has a single case with id 3; resolving the
nonexistent id 99 does not fail with NotFound: it returns
`success = true` and leaves the state unchanged, refuting the claim that a
success response is returned only when an existing case was updated. -/
theorem C7_counterexample :
    (∀ c ∈ dbC5.anomalies, c.id ≠ 99) ∧
    resolve_anomaly dbC5 300000 9 99 (some "resolved") (some "메모")
      = (true, dbC5) := by
  decide

/-- C7, amended: resolving a case id that matches no stored case is not an
error: the endpoint never inspects the UPDATE row count, so it still
answers `success = true`, while no case's state changes. -/
theorem C7_resolve_missing_case (db : DB) (now : Int) (admin aid : Nat)
    (st note : Option String)
    (h : ∀ c ∈ db.anomalies, c.id ≠ aid) :
    resolve_anomaly db now admin aid st note = (true, db) := by
  simp only [resolve_anomaly]
  rw [listMap_id_of_mem db.anomalies _ (fun c hcm => if_neg (h c hcm))]

/-- C7 witness: the amended theorem applied to `dbC5` and the missing
id 99. -/
theorem C7_resolve_missing_case_witness :
    resolve_anomaly dbC5 300000 9 99 (some "resolved") (some "메모")
      = (true, dbC5) :=
  C7_resolve_missing_case dbC5 300000 9 99 (some "resolved") (some "메모")
    (by decide)

/-! ## C5 -/

/-- C5, counterexample.  `dbC5`'s only case is already `resolved`; one call
to the resolve endpoint with body status `detected` moves it back to
`detected`, so resolved is not terminal. -/
theorem C5_counterexample :
    (dbC5.anomalies.map fun c => (c.id, c.status)) = [(3, "resolved")] ∧
    ((resolve_anomaly dbC5 300000 9 3 (some "detected") none).2.anomalies.map
      fun c => (c.id, c.status)) = [(3, "detected")] := by
  decide

/-- C5, amended: the scan never touches an existing case (a resolved or
closed case stays exactly as it is), and the only operation that changes a
case's status is the resolve endpoint — which overwrites it with the
caller-supplied body status (default `resolved`), including `detected`, so
terminality is not enforced there. -/
theorem C5_terminal_status (db : DB) (t now : Int) (admin aid : Nat)
    (st note : Option String) (c : AnomalyCase) (hc : c ∈ db.anomalies) :
    c ∈ (scan_anomalies db t).2.anomalies ∧
    (c.id ≠ aid →
      c ∈ (resolve_anomaly db now admin aid st note).2.anomalies) ∧
    (∀ c' ∈ (resolve_anomaly db now admin aid st note).2.anomalies,
      c'.id = aid → c'.status = st.getD "resolved") := by
  refine ⟨?_, ?_, ?_⟩
  · obtain ⟨ext, hext, _⟩ := scanAnoms_append db t
    rw [hext]
    exact List.mem_append_left ext hc
  · intro hne
    simp only [resolve_anomaly]
    refine List.mem_map.mpr ⟨c, hc, ?_⟩
    rw [if_neg hne]
  · intro c' hmem heq
    obtain ⟨a, hamem, haeq⟩ := List.mem_map.mp hmem
    by_cases hid : a.id = aid
    · rw [← haeq]
      simp [hid]
    · exfalso
      apply hid
      rw [← heq, ← haeq]
      simp [hid]

/-- C5 witness: the amended theorem applied to `dbC5` and its resolved
case. -/
theorem C5_terminal_status_witness :
    caseResolved ∈ (scan_anomalies dbC5 300000).2.anomalies ∧
    (caseResolved.id ≠ 99 →
      caseResolved ∈
        (resolve_anomaly dbC5 300000 9 99 (some "closed")
          none).2.anomalies) ∧
    (∀ c' ∈ (resolve_anomaly dbC5 300000 9 99 (some "closed")
        none).2.anomalies,
      c'.id = 99 → c'.status = (some "closed").getD "resolved") :=
  C5_terminal_status dbC5 300000 300000 9 99 (some "closed") none
    caseResolved (by decide)

/-! ## C8 -/

/-- C8: a worker with no `check_in` record at all is never flagged by the
absent-streak rule: the scan adds no `absent_streak` case for them — any
such case in the post-scan store was already there. -/
theorem C8_never_checked_in_skipped (db : DB) (t : Int) (u : User)
    (hu : u ∈ db.users) (htype : u.user_type = "applicant")
    (hact : u.is_active = true) (happ : u.is_approved = true)
    (hnoci : ∀ r ∈ db.attendance, r.user_id = u.id →
      r.check_type ≠ CheckType.check_in) :
    ∀ c ∈ (scan_anomalies db t).2.anomalies,
      c.anomaly_type = "absent_streak" → c.user_id = u.id →
      c ∈ db.anomalies := by
  have hlast : lastCheckinDate db.attendance u.id = none := by
    unfold lastCheckinDate
    have hnil : (db.attendance.filterMap fun r =>
        if r.user_id == u.id && r.check_type == CheckType.check_in then
          some (dateOf r.check_time) else none) = [] := by
      rw [List.filterMap_eq_nil_iff]
      intro r hr
      by_cases hid : r.user_id = u.id
      · simp [hid, hnoci r hr hid]
      · simp [hid]
    rw [hnil]
    rfl
  intro c hc hty huid
  obtain ⟨e3, h3, p3⟩ := ncStage_append db.rules db.attendance t db.users
    (gpsStage db.rules db.attendance t db.users
      (absentStage db.rules db.attendance (dateOf t) t db.users
        db.anomalies db.next_anomaly_id).1
      (absentStage db.rules db.attendance (dateOf t) t db.users
        db.anomalies db.next_anomaly_id).2.1).1
    (gpsStage db.rules db.attendance t db.users
      (absentStage db.rules db.attendance (dateOf t) t db.users
        db.anomalies db.next_anomaly_id).1
      (absentStage db.rules db.attendance (dateOf t) t db.users
        db.anomalies db.next_anomaly_id).2.1).2.1
  obtain ⟨e2, h2, p2⟩ := gpsStage_append db.rules db.attendance t db.users
    (absentStage db.rules db.attendance (dateOf t) t db.users
      db.anomalies db.next_anomaly_id).1
    (absentStage db.rules db.attendance (dateOf t) t db.users
      db.anomalies db.next_anomaly_id).2.1
  have hc' : c ∈ (ncStage db.rules db.attendance t db.users
      (gpsStage db.rules db.attendance t db.users
        (absentStage db.rules db.attendance (dateOf t) t db.users
          db.anomalies db.next_anomaly_id).1
        (absentStage db.rules db.attendance (dateOf t) t db.users
          db.anomalies db.next_anomaly_id).2.1).1
      (gpsStage db.rules db.attendance t db.users
        (absentStage db.rules db.attendance (dateOf t) t db.users
          db.anomalies db.next_anomaly_id).1
        (absentStage db.rules db.attendance (dateOf t) t db.users
          db.anomalies db.next_anomaly_id).2.1).2.1).1 := hc
  rw [h3] at hc'
  rcases List.mem_append.mp hc' with hc' | hc'
  · rw [h2] at hc'
    rcases List.mem_append.mp hc' with hc' | hc'
    · rcases hR : rulesDict db.rules "absent_3days" with _ | rule
      · simpa [absentStage, hR] using hc'
      · have hc'' : c ∈ (absentLoop rule.score (intOr rule.threshold 3)
            db.attendance (dateOf t) t (applicants db.users)
            db.anomalies db.next_anomaly_id).1 := by
          simpa [absentStage, hR] using hc'
        rcases absentLoop_new_mem rule.score (intOr rule.threshold 3)
            db.attendance (dateOf t) t (applicants db.users)
            db.anomalies db.next_anomaly_id c hc'' with hmem | ⟨w, _, h1, last, h2⟩
        · exact hmem
        · exfalso
          rw [huid] at h1
          rw [← h1] at h2
          rw [hlast] at h2
          exact Option.noConfusion h2
    · exact absurd ((p2 c hc').1 ▸ hty) (by decide)
  · exact absurd ((p3 c hc').1 ▸ hty) (by decide)

/-- C8 witness: against `dbC8` (absent rule active, worker 1 never
checked in) every `absent_streak` case for worker 1 found after the scan
was already there before — here the lone pre-existing `caseAbs`. -/
theorem C8_never_checked_in_skipped_witness :
    caseAbs ∈ (scan_anomalies dbC8 864000).2.anomalies ∧
    caseAbs.anomaly_type = "absent_streak" ∧ caseAbs.user_id = usr1.id ∧
    caseAbs ∈ dbC8.anomalies :=
  ⟨by decide, rfl, rfl,
    C8_never_checked_in_skipped dbC8 864000 usr1 (by decide) rfl rfl rfl
      (by decide) caseAbs (by decide) rfl rfl⟩

/-! ## C6 -/

/-- After regeneration, the old token matches no workplace in the updated
table, provided it belonged (among active workplaces) only to the
regenerated one and differs from the fresh token. -/
theorem findByQr_regen_old (wp_id : Nat) (oldTok newTok : String)
    (hne : newTok ≠ oldTok) (ws : List Workplace)
    (h : ∀ w ∈ ws, w.is_active = true → w.qr_code = oldTok → w.id = wp_id) :
    findByQr (ws.map fun w =>
      if w.id = wp_id then { w with qr_code := newTok } else w) oldTok
      = none := by
  rw [findByQr, List.find?_eq_none]
  intro x hx
  obtain ⟨w, hw, hweq⟩ := List.mem_map.mp hx
  by_cases hid : w.id = wp_id
  · rw [← hweq]
    simp [hid, hne]
  · rw [← hweq]
    simp only [hid, if_neg, not_false_iff, Bool.and_eq_true, beq_iff_eq,
      not_and]
    intro hq ha
    exact hid (h w hw ha hq)

/-- After regeneration, the fresh token resolves to the regenerated
workplace, provided no workplace previously carried the fresh token, every
row with the target id is active, and such a row exists. -/
theorem findByQr_regen_new (wp_id : Nat) (newTok : String)
    (ws : List Workplace)
    (hnot : ∀ w ∈ ws, w.qr_code ≠ newTok)
    (hact : ∀ w ∈ ws, w.id = wp_id → w.is_active = true)
    (hex : ∃ w ∈ ws, w.id = wp_id) :
    ∃ w', findByQr (ws.map fun w =>
        if w.id = wp_id then { w with qr_code := newTok } else w) newTok
      = some w' ∧ w'.id = wp_id := by
  rcases hf : findByQr (ws.map fun w =>
      if w.id = wp_id then { w with qr_code := newTok } else w) newTok
    with _ | w'
  · exfalso
    rw [findByQr, List.find?_eq_none] at hf
    obtain ⟨w0, hw0, hid0⟩ := hex
    refine hf ({ w0 with qr_code := newTok })
      (List.mem_map.mpr ⟨w0, hw0, by rw [if_pos hid0]⟩) ?_
    simp [hact w0 hw0 hid0]
  · refine ⟨w', hf, ?_⟩
    have hmem := List.mem_of_find?_eq_some hf
    have hp := List.find?_some hf
    obtain ⟨w, hw, hweq⟩ := List.mem_map.mp hmem
    by_cases hid : w.id = wp_id
    · rw [← hweq]
      simp [hid]
    · exfalso
      rw [← hweq, if_neg hid] at hp
      rw [Bool.and_eq_true, beq_iff_eq] at hp
      exact hnot w hw hp.1

/-- C6: after a successful QR regeneration, a submission carrying the old
token (with no workplace id) fails with NotFound — the stale token
resolves to no active workplace — while the fresh token resolves to the
regenerated workplace. -/
theorem C6_qr_regeneration (hav : Rat → Rat → Rat → Rat → Int)
    (db db' : DB) (now : Int) (uid : Nat) (ip : Option String)
    (data : AttendanceCheckReq) (wp_id : Nat) (oldTok newTok : String)
    (hreg : regenerate_qr db wp_id newTok = Except.ok (newTok, db'))
    (hne : newTok ≠ oldTok) (hot : oldTok ≠ "")
    (hold : ∀ w ∈ db.workplaces, w.is_active = true → w.qr_code = oldTok →
      w.id = wp_id)
    (hnot : ∀ w ∈ db.workplaces, w.qr_code ≠ newTok)
    (hact : ∀ w ∈ db.workplaces, w.id = wp_id → w.is_active = true)
    (hqr : data.qr_code = some oldTok) (hwid : data.workplace_id = none) :
    attendance_check hav db' now uid ip data
      = Except.error ⟨404, "유효하지 않은 QR 코드입니다"⟩ ∧
    ∃ w', findByQr db'.workplaces newTok = some w' ∧ w'.id = wp_id := by
  have hany : (db.workplaces.any fun w => w.id == wp_id) = true := by
    by_contra hno
    simp only [regenerate_qr, Bool.not_eq_true] at hreg hno
    rw [hno] at hreg
    simp at hreg
  have hdb' : db' = { db with workplaces := db.workplaces.map fun w =>
      if w.id = wp_id then { w with qr_code := newTok } else w } := by
    simp only [regenerate_qr, hany, if_pos] at hreg
    have := Except.ok.inj hreg
    exact (Prod.ext_iff.mp this).2.symm
  subst hdb'
  constructor
  · have hfind : findByQr (db.workplaces.map fun w =>
        if w.id = wp_id then { w with qr_code := newTok } else w) oldTok
        = none := findByQr_regen_old wp_id oldTok newTok hne db.workplaces hold
    simp [attendance_check, hqr, hwid, strTruthy, hot, natTruthy, hfind,
      bind, Except.bind]
  · refine findByQr_regen_new wp_id newTok db.workplaces hnot hact ?_
    obtain ⟨w, hw, hweq⟩ := List.any_eq_true.mp hany
    exact ⟨w, hw, by simpa using hweq⟩

/-- C6 witness: regenerating `wpW`'s token and then presenting the old
token `WP-AAAA1111` yields NotFound, while the new token resolves to
workplace 1. -/
theorem C6_qr_regeneration_witness :
    attendance_check havFar dbWregen 1000 42 none reqOldQr
      = Except.error ⟨404, "유효하지 않은 QR 코드입니다"⟩ ∧
    ∃ w', findByQr dbWregen.workplaces "WP-NEW12345" = some w' ∧
      w'.id = 1 :=
  C6_qr_regeneration havFar dbW dbWregen 1000 42 none reqOldQr 1
    "WP-AAAA1111" "WP-NEW12345" rfl (by decide) (by decide)
    (by decide) (by decide) (by decide) rfl rfl

/-! ## C4 -/

/-- Replacing the gps rule's stored threshold leaves every other rule
lookup unchanged. -/
theorem rulesDict_setGps_other (v : Option Int) (k : String)
    (hk : k ≠ "gps_violation") :
    ∀ (rules : List AnomalyRule) (acc : Option AnomalyRule),
      (rules.map fun r => if r.rule_key = "gps_violation" then
          { r with threshold := v } else r).foldl
        (fun acc r => if r.is_active && r.rule_key == k then some r else acc)
        acc
      = rules.foldl
          (fun acc r => if r.is_active && r.rule_key == k then some r
            else acc) acc := by
  intro rules
  induction rules with
  | nil => intro acc; rfl
  | cons r rules ih =>
    intro acc
    simp only [List.map_cons, List.foldl_cons]
    by_cases hg : r.rule_key = "gps_violation"
    · simp only [hg, if_pos]
      have hkk : ("gps_violation" == k) = false := by
        simp [Ne.symm hk]
      rw [if_neg (by simp [hkk]), if_neg (by simp [hkk])]
      exact ih acc
    · simp only [hg, if_neg, not_false_iff]
      by_cases hc : (r.is_active && r.rule_key == k) = true
      · rw [if_pos hc]
        exact ih (some r)
      · rw [if_neg hc]
        exact ih acc

/-- Replacing the gps rule's stored threshold changes the gps lookup by
exactly that threshold update. -/
theorem rulesDict_setGps_gps (v : Option Int) :
    ∀ (rules : List AnomalyRule) (acc acc' : Option AnomalyRule),
      acc' = acc.map (fun r => { r with threshold := v }) →
      (rules.map fun r => if r.rule_key = "gps_violation" then
          { r with threshold := v } else r).foldl
        (fun acc r => if r.is_active && r.rule_key == "gps_violation" then
          some r else acc) acc'
      = (rules.foldl
          (fun acc r => if r.is_active && r.rule_key == "gps_violation" then
            some r else acc) acc).map (fun r => { r with threshold := v }) := by
  intro rules
  induction rules with
  | nil => intro acc acc' h; simpa using h
  | cons r rules ih =>
    intro acc acc' h
    simp only [List.map_cons, List.foldl_cons]
    by_cases hg : r.rule_key = "gps_violation"
    · simp only [hg, if_pos]
      by_cases ha : r.is_active = true
      · rw [if_pos (by simp [ha]), if_pos (by simp [ha])]
        have hih := ih (some r) (some { r with threshold := v }) rfl
        rw [hg] at hih
        exact hih
      · rw [Bool.not_eq_true] at ha
        rw [if_neg (by simp [ha]), if_neg (by simp [ha])]
        exact ih acc acc' h
    · simp only [hg, if_neg, not_false_iff]
      have hcond : ¬(r.is_active && r.rule_key == "gps_violation")
          = true := by
        simp [hg]
      rw [if_neg hcond, if_neg hcond]
      exact ih acc acc' h

/-- C4, counterexample.  In `dbC4` the `gps_violation` rule stores a
threshold of 50, yet a worker with only 2 invalid records in the window is
flagged: the scan's gps cutoff is the hard-coded 2 of the SQL `HAVING`,
not the stored threshold, so the cutoff is not taken from the rule's
threshold parameter for this rule type. -/
theorem C4_counterexample :
    (rulesDict dbC4.rules "gps_violation").map (fun r => r.threshold)
      = some (some 50) ∧
    invalidCount7d dbC4.attendance 1 864000 = 2 ∧ (2 : Int) < 50 ∧
    (scan_anomalies dbC4 864000).1.detected_count = 1 ∧
    ((scan_anomalies dbC4 864000).1.details.map fun d => d.type)
      = ["gps_violation"] := by
  decide

/-- C4, amended: the absent-streak and no-checkout cutoffs are read from
the stored rule threshold — changing the stored threshold changes which
workers those rules flag — but the gps-violation cutoff is hard-coded at
2: replacing the gps rule's stored threshold never changes the scan's
outcome (result, cases, notifications) on any database. -/
theorem C4_rule_thresholds :
    (∀ (db : DB) (now : Int) (v : Option Int),
      (scan_anomalies (setGpsThreshold v db) now).1
          = (scan_anomalies db now).1 ∧
      (scan_anomalies (setGpsThreshold v db) now).2.anomalies
          = (scan_anomalies db now).2.anomalies ∧
      (scan_anomalies (setGpsThreshold v db) now).2.notifications
          = (scan_anomalies db now).2.notifications) ∧
    ((scan_anomalies (dbAbsent (some 3)) 864000).1.detected_count = 1 ∧
      (scan_anomalies (dbAbsent (some 10)) 864000).1.detected_count = 0) ∧
    ((scan_anomalies (dbNc (some 3)) 864000).1.detected_count = 1 ∧
      (scan_anomalies (dbNc (some 10)) 864000).1.detected_count = 0) := by
  refine ⟨?_, by decide, by decide⟩
  intro db now v
  have hother : ∀ k, k ≠ "gps_violation" →
      rulesDict (db.rules.map fun r => if r.rule_key = "gps_violation" then
        { r with threshold := v } else r) k = rulesDict db.rules k :=
    fun k hk => rulesDict_setGps_other v k hk db.rules none
  have hgps : rulesDict (db.rules.map fun r =>
      if r.rule_key = "gps_violation" then { r with threshold := v } else r)
      "gps_violation"
      = (rulesDict db.rules "gps_violation").map
          (fun r => { r with threshold := v }) :=
    rulesDict_setGps_gps v db.rules none none rfl
  have h1 : ∀ att today now' users anoms nid,
      absentStage (db.rules.map fun r =>
        if r.rule_key = "gps_violation" then { r with threshold := v }
        else r) att today now' users anoms nid
      = absentStage db.rules att today now' users anoms nid := by
    intro att today now' users anoms nid
    unfold absentStage
    rw [hother "absent_3days" (by decide)]
  have h2 : ∀ att now' users anoms nid,
      gpsStage (db.rules.map fun r =>
        if r.rule_key = "gps_violation" then { r with threshold := v }
        else r) att now' users anoms nid
      = gpsStage db.rules att now' users anoms nid := by
    intro att now' users anoms nid
    unfold gpsStage
    rw [hgps]
    cases rulesDict db.rules "gps_violation" <;> rfl
  have h3 : ∀ att now' users anoms nid,
      ncStage (db.rules.map fun r =>
        if r.rule_key = "gps_violation" then { r with threshold := v }
        else r) att now' users anoms nid
      = ncStage db.rules att now' users anoms nid := by
    intro att now' users anoms nid
    unfold ncStage
    rw [hother "no_checkout_3" (by decide)]
  refine ⟨?_, ?_, ?_⟩ <;>
    simp only [scan_anomalies, setGpsThreshold, h1, h2, h3]

/-! ## C3 -/

/-- Two times on the same calendar day are less than one day apart. -/
theorem sameDay_sub_lt (t1 t2 : Int) (hle : t1 ≤ t2)
    (hday : dateOf t1 = dateOf t2) : t2 - t1 < 86400 := by
  unfold dateOf at hday
  omega

/-- The 7-day invalid-record count only shrinks as `now` advances. -/
theorem invalidCount7d_mono (att : List AttendanceRecord) (uid : Nat)
    (t1 t2 : Int) (hle : t1 ≤ t2) :
    invalidCount7d att uid t2 ≤ invalidCount7d att uid t1 := by
  unfold invalidCount7d
  apply List.countP_mono_left
  intro r _ hp
  simp only [Bool.and_eq_true, decide_eq_true_eq] at hp ⊢
  exact ⟨hp.1, by omega⟩

/-- The 14-day missed-checkout count only shrinks as `now` advances. -/
theorem noCheckoutCount_mono (att : List AttendanceRecord) (uid : Nat)
    (t1 t2 : Int) (hle : t1 ≤ t2) :
    noCheckoutCount att uid t2 ≤ noCheckoutCount att uid t1 := by
  unfold noCheckoutCount
  apply List.countP_mono_left
  intro r _ hp
  simp only [Bool.and_eq_true, decide_eq_true_eq] at hp ⊢
  exact ⟨⟨⟨hp.1.1.1, hp.1.1.2⟩, by omega⟩, hp.2⟩

/-- C3, counterexample.  In `dbC3` both scans run on the same day with no
data change in between, yet the second scan creates a case: the
pre-existing open `gps_violation` case suppressed the first run but aged
out of the 7-day dedup window 200 seconds later, so the second run's
`detected_count` is 1, not 0. -/
theorem C3_counterexample :
    dateOf 691200 = dateOf 691400 ∧ ((691200 : Int) ≤ 691400) ∧
    (scan_anomalies dbC3 691200).1.detected_count = 0 ∧
    (scan_anomalies (scan_anomalies dbC3 691200).2 691400).1.detected_count
      = 1 := by
  decide

/-- C3, amended: running the scan twice on the same calendar day with no
data or status change in between yields zero new detections on the second
run, provided no pre-existing open case ages out of its rule's 7- or
14-day dedup window between the two run times. -/
theorem C3_scan_idempotent (db : DB) (t1 t2 : Int)
    (hle : t1 ≤ t2) (hday : dateOf t1 = dateOf t2)
    (hkeep : ∀ c ∈ db.anomalies, openStatus c.status = true →
      (gpsWindow t1 c.created_at = true → gpsWindow t2 c.created_at = true) ∧
      (ncWindow t1 c.created_at = true → ncWindow t2 c.created_at = true)) :
    (scan_anomalies (scan_anomalies db t1).2 t2).1.detected_count = 0 ∧
    (scan_anomalies (scan_anomalies db t1).2 t2).1.details = [] := by
  have hcount : ∀ (d : DB) (tt : Int),
      (scan_anomalies d tt).1.detected_count =
        ((absentStage d.rules d.attendance (dateOf tt) tt d.users
            d.anomalies d.next_anomaly_id).2.2
          ++ (gpsStage d.rules d.attendance tt d.users
              (absentStage d.rules d.attendance (dateOf tt) tt d.users
                d.anomalies d.next_anomaly_id).1
              (absentStage d.rules d.attendance (dateOf tt) tt d.users
                d.anomalies d.next_anomaly_id).2.1).2.2
          ++ (ncStage d.rules d.attendance tt d.users
              (gpsStage d.rules d.attendance tt d.users
                (absentStage d.rules d.attendance (dateOf tt) tt d.users
                  d.anomalies d.next_anomaly_id).1
                (absentStage d.rules d.attendance (dateOf tt) tt d.users
                  d.anomalies d.next_anomaly_id).2.1).1
              (gpsStage d.rules d.attendance tt d.users
                (absentStage d.rules d.attendance (dateOf tt) tt d.users
                  d.anomalies d.next_anomaly_id).1
                (absentStage d.rules d.attendance (dateOf tt) tt d.users
                  d.anomalies d.next_anomaly_id).2.1).2.1).2.2).length :=
    fun d tt => rfl
  have hdetails : ∀ (d : DB) (tt : Int),
      (scan_anomalies d tt).1.details =
        (absentStage d.rules d.attendance (dateOf tt) tt d.users
            d.anomalies d.next_anomaly_id).2.2
          ++ (gpsStage d.rules d.attendance tt d.users
              (absentStage d.rules d.attendance (dateOf tt) tt d.users
                d.anomalies d.next_anomaly_id).1
              (absentStage d.rules d.attendance (dateOf tt) tt d.users
                d.anomalies d.next_anomaly_id).2.1).2.2
          ++ (ncStage d.rules d.attendance tt d.users
              (gpsStage d.rules d.attendance tt d.users
                (absentStage d.rules d.attendance (dateOf tt) tt d.users
                  d.anomalies d.next_anomaly_id).1
                (absentStage d.rules d.attendance (dateOf tt) tt d.users
                  d.anomalies d.next_anomaly_id).2.1).1
              (gpsStage d.rules d.attendance tt d.users
                (absentStage d.rules d.attendance (dateOf tt) tt d.users
                  d.anomalies d.next_anomaly_id).1
                (absentStage d.rules d.attendance (dateOf tt) tt d.users
                  d.anomalies d.next_anomaly_id).2.1).2.1).2.2 :=
    fun d tt => rfl
  rw [hcount, hdetails]
  have hr : (scan_anomalies db t1).2.rules = db.rules := rfl
  have hatt : (scan_anomalies db t1).2.attendance = db.attendance := rfl
  have hus : (scan_anomalies db t1).2.users = db.users := rfl
  have han : (scan_anomalies db t1).2.anomalies =
      (ncStage db.rules db.attendance t1 db.users
        (gpsStage db.rules db.attendance t1 db.users
          (absentStage db.rules db.attendance (dateOf t1) t1 db.users
            db.anomalies db.next_anomaly_id).1
          (absentStage db.rules db.attendance (dateOf t1) t1 db.users
            db.anomalies db.next_anomaly_id).2.1).1
        (gpsStage db.rules db.attendance t1 db.users
          (absentStage db.rules db.attendance (dateOf t1) t1 db.users
            db.anomalies db.next_anomaly_id).1
          (absentStage db.rules db.attendance (dateOf t1) t1 db.users
            db.anomalies db.next_anomaly_id).2.1).2.1).1 := rfl
  have hni : (scan_anomalies db t1).2.next_anomaly_id =
      (ncStage db.rules db.attendance t1 db.users
        (gpsStage db.rules db.attendance t1 db.users
          (absentStage db.rules db.attendance (dateOf t1) t1 db.users
            db.anomalies db.next_anomaly_id).1
          (absentStage db.rules db.attendance (dateOf t1) t1 db.users
            db.anomalies db.next_anomaly_id).2.1).1
        (gpsStage db.rules db.attendance t1 db.users
          (absentStage db.rules db.attendance (dateOf t1) t1 db.users
            db.anomalies db.next_anomaly_id).1
          (absentStage db.rules db.attendance (dateOf t1) t1 db.users
            db.anomalies db.next_anomaly_id).2.1).2.1).2.1 := rfl
  rw [hr, hatt, hus, han, hni]
  generalize hA1 : absentStage db.rules db.attendance (dateOf t1) t1
    db.users db.anomalies db.next_anomaly_id = A1
  generalize hG1 : gpsStage db.rules db.attendance t1 db.users A1.1
    A1.2.1 = G1
  generalize hN1 : ncStage db.rules db.attendance t1 db.users G1.1
    G1.2.1 = N1
  have hA2 : absentStage db.rules db.attendance (dateOf t2) t2 db.users
      N1.1 N1.2.1 = (N1.1, N1.2.1, []) := by
    rcases hA : rulesDict db.rules "absent_3days" with _ | ruleA
    · simp [absentStage, hA]
    · simp only [absentStage, hA]
      apply absentLoop_no_detect
      intro w hw last hlast hth
      rw [← hday] at hth
      obtain ⟨c, hcmem, hcu, hcty, hcop, hcdisj⟩ :=
        absentLoop_covers ruleA.score (intOr ruleA.threshold 3)
          db.attendance (dateOf t1) t1 (applicants db.users) db.anomalies
          db.next_anomaly_id w hw last hlast hth
      have hcA1 : c ∈ A1.1 := by
        rw [← hA1]
        simp only [absentStage, hA]
        exact hcmem
      have hcN1 : c ∈ N1.1 := by
        rw [← hN1]
        obtain ⟨e3, he3, _⟩ := ncStage_append db.rules db.attendance t1
          db.users G1.1 G1.2.1
        rw [he3]
        apply List.mem_append_left
        rw [← hG1]
        obtain ⟨e2, he2, _⟩ := gpsStage_append db.rules db.attendance t1
          db.users A1.1 A1.2.1
        rw [he2]
        exact List.mem_append_left _ hcA1
      apply (hasOpenCase_eq_true_iff N1.1 w.id "absent_streak"
        (sameDayWindow (dateOf t2))).mpr
      refine ⟨c, hcN1, hcu, hcty, hcop, ?_⟩
      rcases hcdisj with ⟨_, hwin⟩ | hnow
      · rw [← hday]
        exact hwin
      · rw [hnow]
        simp [sameDayWindow, hday]
  have hG2 : gpsStage db.rules db.attendance t2 db.users N1.1 N1.2.1
      = (N1.1, N1.2.1, []) := by
    rcases hG : rulesDict db.rules "gps_violation" with _ | ruleG
    · simp [gpsStage, hG]
    · simp only [gpsStage, hG]
      apply gpsLoop_no_detect
      intro u hu hcnt2
      have hcnt1 : invalidCount7d db.attendance u.id t1 ≥ 2 :=
        le_trans hcnt2 (invalidCount7d_mono db.attendance u.id t1 t2 hle)
      obtain ⟨c, hcmem, hcu, hcty, hcop, hcdisj⟩ :=
        gpsLoop_covers ruleG.score db.attendance t1 db.users A1.1 A1.2.1
          u hu hcnt1
      have hcG1 : c ∈ G1.1 := by
        rw [← hG1]
        simp only [gpsStage, hG]
        exact hcmem
      have hcN1 : c ∈ N1.1 := by
        rw [← hN1]
        obtain ⟨e3, he3, _⟩ := ncStage_append db.rules db.attendance t1
          db.users G1.1 G1.2.1
        rw [he3]
        exact List.mem_append_left _ hcG1
      apply (hasOpenCase_eq_true_iff N1.1 u.id "gps_violation"
        (gpsWindow t2)).mpr
      refine ⟨c, hcN1, hcu, hcty, hcop, ?_⟩
      rcases hcdisj with ⟨hmemA1, hwin1⟩ | hnow
      · have hmem' : c ∈ db.anomalies := by
          rw [← hA1] at hmemA1
          obtain ⟨e1, he1, hp1⟩ := absentStage_append db.rules
            db.attendance (dateOf t1) t1 db.users db.anomalies
            db.next_anomaly_id
          rw [he1] at hmemA1
          rcases List.mem_append.mp hmemA1 with h | h
          · exact h
          · exfalso
            have := (hp1 c h).1
            rw [hcty] at this
            exact absurd this (by decide)
        exact (hkeep c hmem' hcop).1 hwin1
      · rw [hnow]
        have hlt := sameDay_sub_lt t1 t2 hle hday
        simp only [gpsWindow, decide_eq_true_eq]
        omega
  have hN2 : ncStage db.rules db.attendance t2 db.users N1.1 N1.2.1
      = (N1.1, N1.2.1, []) := by
    rcases hN : rulesDict db.rules "no_checkout_3" with _ | ruleN
    · simp [ncStage, hN]
    · simp only [ncStage, hN]
      apply noCheckoutLoop_no_detect
      intro u hu hcnt2
      have hmono := noCheckoutCount_mono db.attendance u.id t1 t2 hle
      have hcnt1 : (noCheckoutCount db.attendance u.id t1 : Int)
          ≥ intOr ruleN.threshold 3 := by
        have : (noCheckoutCount db.attendance u.id t2 : Int)
            ≤ (noCheckoutCount db.attendance u.id t1 : Int) := by
          exact_mod_cast hmono
        omega
      obtain ⟨c, hcmem, hcu, hcty, hcop, hcdisj⟩ :=
        noCheckoutLoop_covers ruleN.score (intOr ruleN.threshold 3)
          db.attendance t1 db.users G1.1 G1.2.1 u hu hcnt1
      have hcN1 : c ∈ N1.1 := by
        rw [← hN1]
        simp only [ncStage, hN]
        exact hcmem
      apply (hasOpenCase_eq_true_iff N1.1 u.id "no_checkout"
        (ncWindow t2)).mpr
      refine ⟨c, hcN1, hcu, hcty, hcop, ?_⟩
      rcases hcdisj with ⟨hmemG1, hwin1⟩ | hnow
      · have hmem' : c ∈ db.anomalies := by
          rw [← hG1] at hmemG1
          obtain ⟨e2, he2, hp2⟩ := gpsStage_append db.rules db.attendance
            t1 db.users A1.1 A1.2.1
          rw [he2] at hmemG1
          rcases List.mem_append.mp hmemG1 with h | h
          · rw [← hA1] at h
            obtain ⟨e1, he1, hp1⟩ := absentStage_append db.rules
              db.attendance (dateOf t1) t1 db.users db.anomalies
              db.next_anomaly_id
            rw [he1] at h
            rcases List.mem_append.mp h with h' | h'
            · exact h'
            · exfalso
              have := (hp1 c h').1
              rw [hcty] at this
              exact absurd this (by decide)
          · exfalso
            have := (hp2 c h).1
            rw [hcty] at this
            exact absurd this (by decide)
        exact (hkeep c hmem' hcop).2 hwin1
      · rw [hnow]
        have hlt := sameDay_sub_lt t1 t2 hle hday
        simp only [ncWindow, decide_eq_true_eq]
        omega
  refine ⟨?_, ?_⟩ <;> simp [hA2, hG2, hN2]

/-- C3 witness: the amended theorem applied to `dbAbsent (some 3)` with
both runs on day 10 (the first run creates one case, the second none). -/
theorem C3_scan_idempotent_witness :
    (scan_anomalies (scan_anomalies (dbAbsent (some 3)) 864000).2
      864100).1.detected_count = 0 ∧
    (scan_anomalies (scan_anomalies (dbAbsent (some 3)) 864000).2
      864100).1.details = [] :=
  C3_scan_idempotent (dbAbsent (some 3)) 864000 864100 (by decide)
    (by decide) (by decide)

end KWV
